import Mathlib

/-!
# Blood-pressure monitor (src/main.cpp): embedding and verified properties

The target is an ATmega (AVR) board, as the source comments say: `int` is 16 bits wide,
`long` and `int32_t` 32 bits, `uint16_t` is `unsigned int`.  Machine integers are embedded as
`Nat`/`Int` with an explicit reduction at every place where C++ reduces.  A `float` is embedded
as the rational number it holds; the conversion from `int32_t` rounds to a 24-bit significand,
and so does every operation of the heart-rate computation (lines 266-270).  The remaining
floating-point arithmetic of the deflation and extraction stages is taken as exact.
-/

namespace BPMonitor

/-! ## Constants (main.cpp, lines 5-10) -/

def MAX_SAMPLES : Nat := 1500
def PRESSURE_MIN : Int := 0
def PRESSURE_MAX : Int := 300
def OUTPUT_MIN : Int := 419430
def OUTPUT_MAX : Int := 3774873

/-! ## Machine arithmetic -/

/-- Value of an integer stored into an unsigned object of `w` bits. -/
def toUnsigned (w : Nat) (x : Int) : Nat := (x % 2 ^ w).toNat

/-- Value of an integer stored into a signed two's-complement object of `w` bits. -/
def toSigned (w : Nat) (x : Int) : Int := (x + 2 ^ (w - 1)) % 2 ^ w - 2 ^ (w - 1)

/-- Number of low-order bits that do not fit into a significand of 24 bits. -/
def dropBits : Nat → Nat → Nat
  | 0, _ => 0
  | fuel + 1, n => if n < 2 ^ 24 then 0 else dropBits fuel (n / 2) + 1

/-- Nearest integer with a significand of at most 24 bits, ties to the even significand. -/
def roundSig24 (n : Nat) : Nat :=
  let e := dropBits n n
  let q := n / 2 ^ e
  let r := n % 2 ^ e
  if 2 * r < 2 ^ e ∨ (2 * r = 2 ^ e ∧ q % 2 = 0) then q * 2 ^ e else (q + 1) * 2 ^ e

/-- Conversion `int32_t → float`: exact when the integer has at most 24 significant bits,
otherwise a neighbouring representable value. -/
def int32ToFloat (x : Int) : ℚ :=
  if x < 0 then -((roundSig24 x.natAbs : Nat) : ℚ) else ((roundSig24 x.natAbs : Nat) : ℚ)

/-- Conversion `float → integer`: the fractional part is discarded (the value is assumed to
fit the integer type). -/
def truncToInt (q : ℚ) : Int := if 0 ≤ q then ⌊q⌋ else ⌈q⌉

/-- Number of doublings that bring a positive value `q` up to `2 ^ 23 ≤ q * 2 ^ k`. -/
def scaleBits : Nat → ℚ → Nat
  | 0, _ => 0
  | fuel + 1, q => if 2 ^ 23 ≤ q then 0 else scaleBits fuel (2 * q) + 1

/-- Nearest integer, a tie going to the even one. -/
def roundHalfEven (q : ℚ) : Int :=
  let f := ⌊q⌋
  if q - f < 1 / 2 then f
  else if 1 / 2 < q - f then f + 1
  else if f % 2 = 0 then f else f + 1

/-- Result of a `float` operation whose exact result is `q`: the nearest value with a
significand of 24 bits, ties to the even significand (the exponent range of the format is not
modelled; the values of this program are far from its ends). -/
def roundFloat (q : ℚ) : ℚ :=
  if q = 0 then 0
  else
    let a : ℚ := if q < 0 then -q else q
    let r : ℚ :=
      if a < 2 ^ 24 then
        let k := scaleBits (a.den + 24) a
        ((roundHalfEven (a * 2 ^ k) : Int) : ℚ) / 2 ^ k
      else
        let e := dropBits ⌊a⌋.toNat ⌊a⌋.toNat
        ((roundHalfEven (a / 2 ^ e) : Int) : ℚ) * 2 ^ e
    if q < 0 then -r else r

/-! ## Bus transaction driver (main.cpp, lines 23-74) -/

/-- `Wire.read()`: the next byte of the receive buffer, or `-1` when the buffer is empty. -/
def wireRead : List Nat → Int × List Nat
  | [] => (-1, [])
  | b :: rest => (((b % 256 : Nat) : Int), rest)

/-- `readPressure()`, as a function of the receive buffer `rx` that `Wire.requestFrom`
leaves behind (empty when the sensor did not answer). -/
def readPressure (rx : List Nat) : Int :=
  if rx.length ≠ 0 then
    let r0 := wireRead rx
    let status : Nat := toUnsigned 8 r0.1
    if status &&& (1 <<< 5) ≠ 0 then -1
    else if ¬ (status &&& (1 <<< 6) ≠ 0) then -2
    else if status &&& (1 <<< 2) ≠ 0 then -3
    else if status &&& (1 <<< 0) ≠ 0 then -4
    else
      let r1 := wireRead r0.2
      let pressureByte2 : Nat := toUnsigned 32 r1.1
      let r2 := wireRead r1.2
      let pressureByte1 : Nat := toUnsigned 16 r2.1
      let r3 := wireRead r2.2
      let pressureByte0 : Nat := toUnsigned 8 r3.1
      -- `pressureByte1 << 8` and the first sum are `unsigned int` (16 bits),
      -- `pressureByte2 << 16` and the second sum are `unsigned long` (32 bits)
      let mid : Nat := (pressureByte1 <<< 8) % 2 ^ 16
      let low : Nat := (pressureByte0 + mid) % 2 ^ 16
      let high : Nat := (pressureByte2 <<< 16) % 2 ^ 32
      toSigned 32 (((low + high) % 2 ^ 32 : Nat) : Int)
  else -5

/-! ## Pressure converter (main.cpp, lines 87-94) -/

/-- The integer expression of line 93. Every operand is an `int32_t` or an integer constant,
so the expression is evaluated in `long` (32 bits) with the division of C++ (quotient rounded
toward zero). A product outside the range of `long` is undefined in C++; it is reduced to
32 bits here, which is what the AVR instructions compute. -/
def transferLong (rawPressure : Int) : Int :=
  let d := toSigned 32 (rawPressure - OUTPUT_MIN)
  let p := toSigned 32 (d * (PRESSURE_MAX - PRESSURE_MIN))
  let q := Int.tdiv p (OUTPUT_MAX - OUTPUT_MIN)
  toSigned 32 (q + PRESSURE_MIN)

/-- `getRealPressure(rawPressure)`; the result is the value of the returned `float`. -/
def getRealPressure (rawPressure : Int) : ℚ :=
  if rawPressure < 0 then int32ToFloat rawPressure
  else int32ToFloat (transferLong rawPressure)

/-- The transfer function of the data sheet over the rationals, without any rounding. -/
def exactTransfer (raw : Int) : ℚ :=
  ((raw : ℚ) - 419430) * 300 / 3355443 + 0

/-! ## Measurement cycle (main.cpp, lines 103-282)

Arrays are functions from the index to the stored value; a cell that was never written holds
whatever the function held before, which stands for uninitialised memory. -/

/-- One bus transaction followed by the conversion, `getRealPressure(readPressure())`;
`rx` is the receive buffer of that transaction. -/
def sample (rx : List Nat) : ℚ := getRealPressure (readPressure rx)

/-- A counted loop `for (i = start; i < start + count; i++) s = body i s`. -/
def forLoop {σ : Type} (body : Nat → σ → σ) : Nat → Nat → σ → σ
  | _, 0, s => s
  | i, count + 1, s => forLoop body (i + 1) count (body i s)

/-- The fault named by the switch of lines 112-130. -/
inductive Fault where
  | busy
  | noPower
  | memoryError
  | saturated
  | unavailable
  deriving DecidableEq, Repr

/-- The case selected by `switch ((int)myCalculatedPressure)`; `none` is the default case,
which reports nothing. -/
def faultOfCode (code : Int) : Option Fault :=
  if code = -1 then some Fault.busy
  else if code = -2 then some Fault.noPower
  else if code = -3 then some Fault.memoryError
  else if code = -4 then some Fault.saturated
  else if code = -5 then some Fault.unavailable
  else none

/-- Pump-start detection, lines 137-140: read again while the rise is below 5 mmHg.
`none`: the readings supplied ran out before the loop ended. -/
def awaitPumpStart (myCalculatedPressure : ℚ) : ℚ → List (List Nat) → Option (ℚ × List (List Nat))
  | secondPressure, [] =>
    if secondPressure - myCalculatedPressure < 5 then none else some (secondPressure, [])
  | secondPressure, rx :: bus =>
    if secondPressure - myCalculatedPressure < 5 then
      awaitPumpStart myCalculatedPressure (sample rx) bus
    else some (secondPressure, rx :: bus)

/-- The line printed by one slope check (lines 173-183). -/
inductive RateMsg where
  | tooFast
  | tooSlow
  | steady
  deriving DecidableEq, Repr

/-- Variables of the deflation loop (lines 152-202). `report` lists the slope checks made,
the most recent first. -/
structure Deflation where
  myCalculatedPressure : ℚ
  secondPressure : ℚ
  avgSlope : ℚ
  numWarnings : Nat
  pressureCount : Nat
  pressures : Nat → ℚ
  report : List RateMsg

/-- Slope check of lines 173-183; `numWarnings` is a `uint8_t`. -/
def checkSlope (d : Deflation) : Deflation :=
  if d.pressureCount % 50 = 0 then
    if d.avgSlope > 6 then
      { d with report := RateMsg.tooFast :: d.report, numWarnings := (d.numWarnings + 1) % 2 ^ 8 }
    else if d.avgSlope < 2 then
      { d with report := RateMsg.tooSlow :: d.report, numWarnings := (d.numWarnings + 1) % 2 ^ 8 }
    else { d with report := RateMsg.steady :: d.report }
  else d

/-- Storing of lines 187-197; `pressureCount` is a `uint16_t`. -/
def storeSample (d : Deflation) : Deflation :=
  if d.pressureCount < MAX_SAMPLES then
    let d1 : Deflation :=
      { d with
        pressures := Function.update d.pressures d.pressureCount d.myCalculatedPressure,
        pressureCount := (d.pressureCount + 1) % 2 ^ 16 }
    if d1.pressureCount % 50 = 0 then
      { d1 with
        avgSlope := d1.secondPressure - d1.myCalculatedPressure,
        secondPressure := d1.myCalculatedPressure }
    else d1
  else d

/-- One pass through the body of the deflation loop (lines 172-201); `rx` is the receive
buffer of the transaction of line 201. -/
def deflateStep (d : Deflation) (rx : List Nat) : Deflation :=
  { storeSample (checkSlope d) with myCalculatedPressure := sample rx }

/-- The deflation loop `while (myCalculatedPressure > 40)` of lines 170-202.
`none`: the readings supplied ran out while the pressure was still above 40. -/
def deflate : List (List Nat) → Deflation → Option Deflation
  | [], d => if d.myCalculatedPressure > 40 then none else some d
  | rx :: bus, d =>
    if d.myCalculatedPressure > 40 then deflate bus (deflateStep d rx) else some d

/-- Variables of the rolling average (lines 209-222). -/
structure Rolling where
  tempSum : ℚ
  averages : Nat → ℚ

/-- Rolling average of lines 209-222. -/
def rollingAverage (pressures : Nat → ℚ) (pressureCount : Nat) (averages0 : Nat → ℚ) : Rolling :=
  let boot : Rolling :=
    forLoop (fun i r =>
      { tempSum := r.tempSum + pressures i,
        averages := Function.update r.averages i (pressures i) })
      0 5 { tempSum := 0, averages := averages0 }
  forLoop (fun i r =>
      let t := r.tempSum - pressures (i - 5) + pressures i
      { tempSum := t, averages := Function.update r.averages i (t / 5) })
    5 (pressureCount - 5) boot

/-- Variables of the search for the largest oscillation (lines 224-237). -/
structure Envelope where
  differences : Nat → ℚ
  maxOscillation : ℚ

/-- Search for the largest oscillation, lines 224-237. -/
def findMaxOscillation (pressures averages : Nat → ℚ) (pressureCount : Nat)
    (differences0 : Nat → ℚ) : Envelope :=
  forLoop (fun i e =>
      let v := 0.7 + pressures i - averages i
      { differences := Function.update e.differences i v,
        maxOscillation := if v > e.maxOscillation then v else e.maxOscillation })
    5 (pressureCount - 5)
    { differences := differences0, maxOscillation := 0.7 + pressures 5 - averages 5 }

/-- Variables of the crossing detection (lines 161-162 and 240). -/
structure Crossing where
  diastolic : Int
  systolic : Int
  foundSystolic : Bool
  deriving DecidableEq, Repr

/-- Body of the loop of lines 241-248. -/
def crossingStep (pressures differences : Nat → ℚ) (maxOscillation : ℚ) (i : Nat)
    (c : Crossing) : Crossing :=
  if differences i > 0.78 * maxOscillation ∧ differences i < 0.83 * maxOscillation then
    { c with diastolic := truncToInt (pressures i) }
  else if differences i > 0.48 * maxOscillation ∧ differences i < 0.53 * maxOscillation
      ∧ c.foundSystolic = false then
    { c with systolic := truncToInt (pressures i), foundSystolic := true }
  else c

/-- Crossing detection, lines 239-248. -/
def findCrossings (pressures differences : Nat → ℚ) (maxOscillation : ℚ)
    (pressureCount : Nat) : Crossing :=
  forLoop (crossingStep pressures differences maxOscillation) 5 (pressureCount - 5)
    { diastolic := 0, systolic := 0, foundSystolic := false }

/-- The magnitude `x` lies in the diastolic band of the maximum `m` (line 242). -/
def diastolicBand (x m : ℚ) : Prop := x > 0.78 * m ∧ x < 0.83 * m

/-- The magnitude `x` lies in the systolic band of the maximum `m` (line 244). -/
def systolicBand (x m : ℚ) : Prop := x > 0.48 * m ∧ x < 0.53 * m

instance (x m : ℚ) : Decidable (diastolicBand x m) := inferInstanceAs (Decidable (_ ∧ _))

instance (x m : ℚ) : Decidable (systolicBand x m) := inferInstanceAs (Decidable (_ ∧ _))

/-- Variables of the oscillation count (lines 163 and 251-254). -/
structure Beats where
  numOscillations : Nat
  foundFirst : Bool
  firstIndex : Int
  lastIndex : Int
  deriving DecidableEq, Repr

/-- Oscillation count, lines 251-264; `numOscillations` is a `uint8_t`. -/
def countOscillations (differences : Nat → ℚ) (pressureCount : Nat) : Beats :=
  forLoop (fun i b =>
      if differences i > 1 then
        { numOscillations := (b.numOscillations + 1) % 2 ^ 8,
          foundFirst := true,
          firstIndex := if b.foundFirst = false then (i : Int) else b.firstIndex,
          lastIndex := (i : Int) }
      else b)
    5 (pressureCount - 5)
    { numOscillations := 0, foundFirst := false, firstIndex := 0, lastIndex := 0 }

/-- Heart rate of lines 266-270 as the `float` holds it; `none` when the division is by zero
and the `float` is therefore not a finite number. Line 266 divides in `double`, which has the
format of `float` on this target, and stores the quotient into the `uint8_t`; each of the
three operations of lines 268-270 is a `float` operation and rounds. -/
def heartRate (b : Beats) : Option ℚ :=
  let numOscillations : Nat :=
    toUnsigned 8 (truncToInt (roundFloat ((b.numOscillations : ℚ) / roundFloat 2.6)))
  let timeDiff : ℚ := ((b.lastIndex - b.firstIndex : Int) : ℚ)
  if timeDiff = 0 then none
  else
    let perSample : ℚ := roundFloat ((numOscillations : ℚ) / timeDiff)
    let perSecond : ℚ := roundFloat (perSample * 50)
    some (roundFloat (perSecond * 60))

/-- Conversion `(int)heartRate` of line 278, `int` being 16 bits wide; `none` when the
conversion is undefined. -/
def castInt (h : Option ℚ) : Option Int :=
  match h with
  | none => none
  | some q => if -32768 ≤ truncToInt q ∧ truncToInt q ≤ 32767 then some (truncToInt q) else none

/-- The three numbers printed by lines 273-279. -/
structure Estimate where
  systolic : Int
  diastolic : Int
  heartRateBPM : Option Int
  deriving DecidableEq, Repr

/-- Oscillation extraction, lines 209-279, from the stored samples. `averages0` and
`differences0` are the contents of the two local arrays before they are written. -/
def extract (pressures : Nat → ℚ) (pressureCount : Nat) (averages0 differences0 : Nat → ℚ) :
    Estimate :=
  let r := rollingAverage pressures pressureCount averages0
  let e := findMaxOscillation pressures r.averages pressureCount differences0
  let c := findCrossings pressures e.differences e.maxOscillation pressureCount
  let b := countOscillations e.differences pressureCount
  { systolic := c.systolic, diastolic := c.diastolic, heartRateBPM := castInt (heartRate b) }

/-- Contents of the three local arrays of `loop()` before they are written. -/
structure Uninit where
  pressures : Nat → ℚ
  averages : Nat → ℚ
  differences : Nat → ℚ

/-- How one run of `loop()` ends. -/
inductive Outcome where
  /-- The first reading was negative; the message of the selected case, if any, is printed. -/
  | fault (message : Option Fault)
  /-- The loop of lines 143-147 never ends. -/
  | pumpUpForever
  /-- The readings supplied ran out in a loop that was still reading. -/
  | awaitingReading
  /-- More than 5 warnings were counted (line 207). -/
  | unreliable (report : List RateMsg)
  /-- The estimate of lines 273-279 is printed. -/
  | estimate (report : List RateMsg) (e : Estimate)

/-- The slope checks made during the run, the most recent first. -/
def Outcome.report : Outcome → List RateMsg
  | Outcome.unreliable r => r
  | Outcome.estimate r _ => r
  | _ => []

/-- The estimate printed by the run, if one is printed. -/
def Outcome.printed : Outcome → Option Estimate
  | Outcome.estimate _ e => some e
  | _ => none

/-- Number of warnings among the slope checks. -/
def warnings (report : List RateMsg) : Nat :=
  (report.filter (fun m => decide (m ≠ RateMsg.steady))).length

/-- One run of `loop()` (lines 103-282); `bus` lists the receive buffers of the successive
bus transactions. -/
def loop (bus : List (List Nat)) (mem : Uninit) : Outcome :=
  match bus with
  | [] => Outcome.awaitingReading
  | rx1 :: bus1 =>
    let myCalculatedPressure := sample rx1
    if myCalculatedPressure < 0 then
      Outcome.fault (faultOfCode (truncToInt myCalculatedPressure))
    else
      match bus1 with
      | [] => Outcome.awaitingReading
      | rx2 :: bus2 =>
        match awaitPumpStart myCalculatedPressure (sample rx2) bus2 with
        | none => Outcome.awaitingReading
        | some (_, bus3) =>
          if myCalculatedPressure < 170 then Outcome.pumpUpForever
          else
            match bus3 with
            | [] => Outcome.awaitingReading
            | rx3 :: bus4 =>
              let start : Deflation :=
                { myCalculatedPressure := sample rx3,
                  secondPressure := myCalculatedPressure,
                  avgSlope := myCalculatedPressure - sample rx3,
                  numWarnings := 0,
                  pressureCount := 0,
                  pressures := mem.pressures,
                  report := [] }
              match deflate bus4 start with
              | none => Outcome.awaitingReading
              | some d =>
                if d.numWarnings > 5 then Outcome.unreliable d.report
                else
                  Outcome.estimate d.report
                    (extract d.pressures d.pressureCount mem.averages mem.differences)

/-! ## Sample data -/

/-- Receive buffer of a fault-free transaction with the raw code 2320848 (170 mmHg). -/
def rx170 : List Nat := [0x40, 35, 105, 208]

/-- Receive buffer of a fault-free transaction with the raw code 2376772 (175 mmHg). -/
def rx175 : List Nat := [0x40, 36, 68, 68]

/-- Receive buffer of a fault-free transaction with the raw code 1537911 (100 mmHg). -/
def rx100 : List Nat := [0x40, 23, 119, 119]

/-- Receive buffer of a fault-free transaction with the raw code 866823 (40 mmHg). -/
def rx40 : List Nat := [0x40, 13, 58, 7]

/-- Receive buffer of a transaction answered with the busy bit set. -/
def rxBusy : List Nat := [0x20, 0, 0, 0]

/-- A cuff held at 170 mmHg for 1726 samples of the deflation loop and then released. -/
def heldRun : List (List Nat) :=
  rx170 :: rx175 :: rx170 :: (List.replicate 1725 rx170 ++ [rx40])

/-- Magnitudes with the maximum 10 at index 5, followed by 8.0, 5.0, 5.0 and 8.1. -/
def sampleMagnitudes (i : Nat) : ℚ := [0, 0, 0, 0, 0, 10, 8, 5, 5, 8.1].getD i 0

/-- Pressures falling by 1 mmHg per sample from 150 mmHg. -/
def samplePressures (i : Nat) : ℚ := 150 - i

/-! ## Vocabulary of the heart-rate claims -/

/-- Body of the loop of lines 255-264, as in `countOscillations`. -/
def beatStep (differences : Nat → ℚ) (i : Nat) (b : Beats) : Beats :=
  if differences i > 1 then
    { numOscillations := (b.numOscillations + 1) % 2 ^ 8,
      foundFirst := true,
      firstIndex := if b.foundFirst = false then (i : Int) else b.firstIndex,
      lastIndex := (i : Int) }
  else b

/-- Number of indices `i` with `5 ≤ i < n` whose magnitude exceeds 1. -/
def oscillationCount (differences : Nat → ℚ) (n : Nat) : Nat :=
  (List.range' 5 (n - 5)).countP (fun i => decide (differences i > 1))

/-! ## Sample data of the extraction and deflation claims -/

/-- The samples 10, 10, 10, 10, 10, 20. -/
def windowSamples (i : Nat) : ℚ := [10, 10, 10, 10, 10, 20].getD i 0

/-- The samples 100, 100, 100, 100, 100, 102, 104; their magnitudes at the indices 5 and 6
are 2.3 and 3.5. -/
def risingSamples (i : Nat) : ℚ := [100, 100, 100, 100, 100, 102, 104].getD i 0

/-- Thirty samples of 100 with a sample of 105 at every odd index from 5 to 29; the magnitude
is 2.7 or more at these thirteen indices and below 1 at every other index from 5 on. -/
def spikeSamples (i : Nat) : ℚ := if i % 2 = 1 ∧ 5 ≤ i ∧ i ≤ 29 then 105 else 100

/-- Magnitudes above 1 at the indices 5, 6 and 7 only. -/
def threeBeats (i : Nat) : ℚ := if 5 ≤ i ∧ i ≤ 7 then 2 else 0

/-- Magnitudes above 1 at the index 5 only. -/
def oneBeat (i : Nat) : ℚ := if i = 5 then 2 else 0

/-- A deflation in hundredths of a mmHg: from 170 mmHg by 0.08 mmHg per sample, with a pulse
added every 20 samples from 100 to 620 (4.8 mmHg at 200, 10 at 300, 8 at 400, 2 elsewhere). -/
def pulseCenti (i : Nat) : Int :=
  17000 - 8 * (i : Int) +
    (if i % 20 = 0 ∧ 100 ≤ i ∧ i ≤ 620 then
      (if i = 200 then 480 else if i = 300 then 1000 else if i = 400 then 800 else 200)
    else 0)

/-- The same deflation in mmHg. -/
def pulseSeries (i : Nat) : ℚ := (pulseCenti i : ℚ) / 100

/-- The magnitude `0.7 + p[i] - mean(p[i-4..i])` of the pulse series, multiplied by 500. -/
def pulseMagnitude500 (i : Nat) : Int :=
  350 + 5 * pulseCenti i
    - (pulseCenti (i - 4) + pulseCenti (i - 3) + pulseCenti (i - 2) + pulseCenti (i - 1)
        + pulseCenti i)

/-- A cuff held at 170 mmHg for 1502 samples of the deflation loop and then released. -/
def heldRunFull : List (List Nat) :=
  rx170 :: rx175 :: rx170 :: (List.replicate 1501 rx170 ++ [rx40])

/-- Receive buffer of a fault-free transaction with the raw code 408245, just below the
calibrated range. -/
def rxBelow : List Nat := [0x40, 6, 58, 181]

/-- The readings of a deflation loop that starts in state `d` and then receives `bus`. -/
def readings (d : Deflation) (bus : List (List Nat)) : List ℚ :=
  d.myCalculatedPressure :: bus.map sample

/-- A deflation loop entered at 100 mmHg after an anchor of 170 mmHg, nothing stored yet. -/
def sampleStart : Deflation :=
  { myCalculatedPressure := 100, secondPressure := 170, avgSlope := 70, numWarnings := 0,
    pressureCount := 0, pressures := fun _ => 0, report := [] }

/-! ## Auxiliary lemmas: bus driver and converter -/

theorem toUnsigned_byte (w : Nat) (b : Nat) (hb : b < 256) (hw : w = 8 ∨ w = 16 ∨ w = 32) :
    toUnsigned w (((b % 256 : Nat) : Int)) = b := by
  unfold toUnsigned
  rcases hw with h | h | h <;> subst h <;> omega

set_option maxRecDepth 100000 in
theorem status_bits (s : Nat) (hs : s < 256) :
    ((s &&& (1 <<< 5) ≠ 0) ↔ s.testBit 5 = true) ∧
    ((s &&& (1 <<< 6) ≠ 0) ↔ s.testBit 6 = true) ∧
    ((s &&& (1 <<< 2) ≠ 0) ↔ s.testBit 2 = true) ∧
    ((s &&& (1 <<< 0) ≠ 0) ↔ s.testBit 0 = true) := by
  revert s
  decide

theorem readPressure_fault (s : Nat) (tail : List Nat) (hs : s < 256) :
    (s.testBit 5 = true → readPressure (s :: tail) = -1) ∧
    (s.testBit 5 = false → s.testBit 6 = false → readPressure (s :: tail) = -2) ∧
    (s.testBit 5 = false → s.testBit 6 = true → s.testBit 2 = true →
      readPressure (s :: tail) = -3) ∧
    (s.testBit 5 = false → s.testBit 6 = true → s.testBit 2 = false → s.testBit 0 = true →
      readPressure (s :: tail) = -4) := by
  obtain ⟨e5, e6, e2, e0⟩ := status_bits s hs
  have hlen : (s :: tail).length ≠ 0 := by simp
  refine ⟨fun c5 => ?_, fun c5 c6 => ?_, fun c5 c6 c2 => ?_, fun c5 c6 c2 c0 => ?_⟩
  · simp only [readPressure, wireRead, toUnsigned_byte 8 s hs (Or.inl rfl)]
    rw [if_pos hlen, if_pos (e5.mpr c5)]
  · have n5 : ¬ (s &&& (1 <<< 5) ≠ 0) := by rw [e5]; simp [c5]
    have n6 : ¬ (s &&& (1 <<< 6) ≠ 0) := by rw [e6]; simp [c6]
    simp only [readPressure, wireRead, toUnsigned_byte 8 s hs (Or.inl rfl)]
    rw [if_pos hlen, if_neg n5, if_pos n6]
  · have n5 : ¬ (s &&& (1 <<< 5) ≠ 0) := by rw [e5]; simp [c5]
    simp only [readPressure, wireRead, toUnsigned_byte 8 s hs (Or.inl rfl)]
    rw [if_pos hlen, if_neg n5, if_neg (not_not.mpr (e6.mpr c6)), if_pos (e2.mpr c2)]
  · have n5 : ¬ (s &&& (1 <<< 5) ≠ 0) := by rw [e5]; simp [c5]
    have n2 : ¬ (s &&& (1 <<< 2) ≠ 0) := by rw [e2]; simp [c2]
    simp only [readPressure, wireRead, toUnsigned_byte 8 s hs (Or.inl rfl)]
    rw [if_pos hlen, if_neg n5, if_neg (not_not.mpr (e6.mpr c6)), if_neg n2, if_pos (e0.mpr c0)]

theorem readPressure_value (s b2 b1 b0 : Nat) (rest : List Nat)
    (hs : s < 256) (h2 : b2 < 256) (h1 : b1 < 256) (h0 : b0 < 256)
    (c5 : s.testBit 5 = false) (c6 : s.testBit 6 = true)
    (c2 : s.testBit 2 = false) (c0 : s.testBit 0 = false) :
    readPressure (s :: b2 :: b1 :: b0 :: rest) = (b2 : Int) * 65536 + b1 * 256 + b0 := by
  obtain ⟨e5, e6, e2, e0⟩ := status_bits s hs
  have n5 : ¬ (s &&& (1 <<< 5) ≠ 0) := by rw [e5]; simp [c5]
  have n6 : (s &&& (1 <<< 6) ≠ 0) := by rw [e6]; exact c6
  have n2 : ¬ (s &&& (1 <<< 2) ≠ 0) := by rw [e2]; simp [c2]
  have n0 : ¬ (s &&& (1 <<< 0) ≠ 0) := by rw [e0]; simp [c0]
  simp only [readPressure, wireRead, toUnsigned_byte 8 s hs (Or.inl rfl),
    toUnsigned_byte 32 b2 h2 (Or.inr (Or.inr rfl)), toUnsigned_byte 16 b1 h1 (Or.inr (Or.inl rfl)),
    toUnsigned_byte 8 b0 h0 (Or.inl rfl)]
  rw [if_pos (by simp), if_neg n5, if_neg (not_not.mpr n6), if_neg n2, if_neg n0]
  simp only [Nat.shiftLeft_eq, toSigned]
  omega

theorem readPressure_range (s b2 : Nat) (rest : List Nat) (hs : s < 256)
    (c5 : s.testBit 5 = false) (c6 : s.testBit 6 = true)
    (c2 : s.testBit 2 = false) (c0 : s.testBit 0 = false) :
    0 ≤ readPressure (s :: b2 :: rest) ∧ readPressure (s :: b2 :: rest) < 2 ^ 24 := by
  obtain ⟨e5, e6, e2, e0⟩ := status_bits s hs
  have n5 : ¬ (s &&& (1 <<< 5) ≠ 0) := by rw [e5]; simp [c5]
  have n6 : (s &&& (1 <<< 6) ≠ 0) := by rw [e6]; exact c6
  have n2 : ¬ (s &&& (1 <<< 2) ≠ 0) := by rw [e2]; simp [c2]
  have n0 : ¬ (s &&& (1 <<< 0) ≠ 0) := by rw [e0]; simp [c0]
  rcases rest with _ | ⟨b1, _ | ⟨b0, rest⟩⟩ <;>
  · simp only [readPressure, wireRead, toUnsigned_byte 8 s hs (Or.inl rfl)]
    rw [if_pos (by simp), if_neg n5, if_neg (not_not.mpr n6), if_neg n2, if_neg n0]
    simp only [Nat.shiftLeft_eq, toSigned, toUnsigned]
    omega

theorem readPressure_decoded (s b2 : Nat) (rest : List Nat) (hs : s < 256) :
    (readPressure (s :: b2 :: rest) = -1 ↔ s.testBit 5 = true) ∧
    (readPressure (s :: b2 :: rest) = -2 ↔ s.testBit 5 = false ∧ s.testBit 6 = false) ∧
    (readPressure (s :: b2 :: rest) = -3 ↔
      s.testBit 5 = false ∧ s.testBit 6 = true ∧ s.testBit 2 = true) ∧
    (readPressure (s :: b2 :: rest) = -4 ↔
      s.testBit 5 = false ∧ s.testBit 6 = true ∧ s.testBit 2 = false ∧ s.testBit 0 = true) := by
  obtain ⟨f1, f2, f3, f4⟩ := readPressure_fault s (b2 :: rest) hs
  have fv := readPressure_range s b2 rest hs
  cases c5 : s.testBit 5 <;> cases c6 : s.testBit 6 <;> cases c2 : s.testBit 2 <;>
    cases c0 : s.testBit 0 <;> simp [c5, c6, c2, c0] at f1 f2 f3 f4 fv ⊢ <;>
    first
      | (rw [f1]; decide)
      | (rw [f2]; decide)
      | (rw [f3]; decide)
      | (rw [f4]; decide)
      | (refine ⟨?_, ?_, ?_, ?_⟩ <;> omega)

theorem roundSig24_small (n : Nat) (h : n < 2 ^ 24) : roundSig24 n = n := by
  have he : dropBits n n = 0 := by
    cases n with
    | zero => rfl
    | succ k => simp only [dropBits]; rw [if_pos h]
  unfold roundSig24
  simp [he, Nat.mod_one]

theorem int32ToFloat_exact (x : Int) (h : x.natAbs < 2 ^ 24) : int32ToFloat x = (x : ℚ) := by
  unfold int32ToFloat
  rw [roundSig24_small _ h]
  by_cases hx : x < 0
  · rw [if_pos hx]
    have h1 : ((x.natAbs : Nat) : Int) = -x := by omega
    rw [← Int.cast_natCast, h1]
    push_cast
    ring
  · rw [if_neg hx]
    have h1 : ((x.natAbs : Nat) : Int) = x := by omega
    rw [← Int.cast_natCast, h1]

theorem transferLong_calibrated (r : Int) (h1 : OUTPUT_MIN ≤ r) (h2 : r ≤ OUTPUT_MAX) :
    transferLong r = (r - 419430) * 300 / 3355443 := by
  unfold OUTPUT_MIN at h1
  unfold OUTPUT_MAX at h2
  have hd : toSigned 32 (r - OUTPUT_MIN) = r - 419430 := by
    unfold toSigned OUTPUT_MIN; omega
  have hp : toSigned 32 ((r - 419430) * (PRESSURE_MAX - PRESSURE_MIN)) = (r - 419430) * 300 := by
    unfold toSigned PRESSURE_MAX PRESSURE_MIN; omega
  have hq : Int.tdiv ((r - 419430) * 300) (OUTPUT_MAX - OUTPUT_MIN) = (r - 419430) * 300 / 3355443 := by
    unfold OUTPUT_MAX OUTPUT_MIN
    rw [Int.tdiv_eq_ediv (by omega) (by norm_num)]
    norm_num
  unfold transferLong
  simp only [hd, hp, hq]
  unfold toSigned PRESSURE_MIN
  omega

theorem readPressure_complete (s b2 b1 b0 : Nat) (rest : List Nat)
    (hs : s < 256) (h2 : b2 < 256) (h1 : b1 < 256) (h0 : b0 < 256) :
    readPressure (s :: b2 :: b1 :: b0 :: rest) =
      if s.testBit 5 = true then -1
      else if s.testBit 6 = false then -2
      else if s.testBit 2 = true then -3
      else if s.testBit 0 = true then -4
      else (b2 : Int) * 65536 + b1 * 256 + b0 := by
  obtain ⟨f1, f2, f3, f4⟩ := readPressure_fault s (b2 :: b1 :: b0 :: rest) hs
  have fv := readPressure_value s b2 b1 b0 rest hs h2 h1 h0
  cases c5 : s.testBit 5 <;> cases c6 : s.testBit 6 <;> cases c2 : s.testBit 2 <;>
    cases c0 : s.testBit 0 <;> simp [c5, c6, c2, c0] at f1 f2 f3 f4 fv ⊢ <;> assumption

theorem int32ToFloat_exact_le (x : Int) (h : x.natAbs ≤ 2 ^ 24) : int32ToFloat x = (x : ℚ) := by
  rcases Nat.lt_or_ge x.natAbs (2 ^ 24) with h1 | h1
  · exact int32ToFloat_exact x h1
  · have h2 : x.natAbs = 16777216 := by omega
    have h3 : roundSig24 16777216 = 16777216 := by decide!
    unfold int32ToFloat
    rw [h2, h3]
    by_cases hx : x < 0
    · rw [if_pos hx]
      have h4 : x = -16777216 := by omega
      rw [h4]; norm_num
    · rw [if_neg hx]
      have h4 : x = 16777216 := by omega
      rw [h4]; norm_num

theorem getRealPressure_calibrated (r : Int) (h1 : OUTPUT_MIN ≤ r) (h2 : r ≤ OUTPUT_MAX) :
    getRealPressure r = (((r - 419430) * 300 / 3355443 : Int) : ℚ) := by
  have ht := transferLong_calibrated r h1 h2
  unfold OUTPUT_MIN at h1
  unfold OUTPUT_MAX at h2
  unfold getRealPressure
  rw [if_neg (by omega), ht]
  apply int32ToFloat_exact
  omega

/-! ## Auxiliary lemmas: crossing detection -/

theorem bands_disjoint (x m : ℚ) (hd : diastolicBand x m) : ¬ systolicBand x m := by
  unfold diastolicBand at hd
  unfold systolicBand
  rintro ⟨h1, h2⟩
  obtain ⟨h3, h4⟩ := hd
  norm_num at h1 h2 h3 h4
  linarith

theorem crossingStep_diastolic_in (p d : Nat → ℚ) (m : ℚ) (i : Nat) (c : Crossing)
    (h : diastolicBand (d i) m) :
    (crossingStep p d m i c).diastolic = truncToInt (p i) := by
  unfold diastolicBand at h
  unfold crossingStep
  rw [if_pos h]

theorem crossingStep_diastolic_out (p d : Nat → ℚ) (m : ℚ) (i : Nat) (c : Crossing)
    (h : ¬ diastolicBand (d i) m) :
    (crossingStep p d m i c).diastolic = c.diastolic := by
  unfold diastolicBand at h
  unfold crossingStep
  rw [if_neg h]
  split_ifs <;> rfl

theorem crossingStep_systolic_first (p d : Nat → ℚ) (m : ℚ) (i : Nat) (c : Crossing)
    (h : systolicBand (d i) m) (hf : c.foundSystolic = false) :
    (crossingStep p d m i c).systolic = truncToInt (p i) ∧
    (crossingStep p d m i c).foundSystolic = true := by
  have hd : ¬ diastolicBand (d i) m := fun hd => bands_disjoint _ _ hd h
  unfold diastolicBand at hd
  unfold systolicBand at h
  unfold crossingStep
  rw [if_neg hd, if_pos ⟨h.1, h.2, hf⟩]
  exact ⟨rfl, rfl⟩

theorem crossingStep_systolic_out (p d : Nat → ℚ) (m : ℚ) (i : Nat) (c : Crossing)
    (h : ¬ systolicBand (d i) m) :
    (crossingStep p d m i c).systolic = c.systolic ∧
    (crossingStep p d m i c).foundSystolic = c.foundSystolic := by
  unfold systolicBand at h
  unfold crossingStep
  have h2 : ¬ (d i > 0.48 * m ∧ d i < 0.53 * m ∧ c.foundSystolic = false) :=
    fun h3 => h ⟨h3.1, h3.2.1⟩
  rw [if_neg h2]
  split_ifs <;> exact ⟨rfl, rfl⟩

theorem crossingStep_systolic_found (p d : Nat → ℚ) (m : ℚ) (i : Nat) (c : Crossing)
    (hf : c.foundSystolic = true) :
    (crossingStep p d m i c).systolic = c.systolic ∧
    (crossingStep p d m i c).foundSystolic = true := by
  unfold crossingStep
  have h2 : ¬ (d i > 0.48 * m ∧ d i < 0.53 * m ∧ c.foundSystolic = false) := by
    rintro ⟨_, _, h3⟩
    rw [hf] at h3
    exact Bool.noConfusion h3
  rw [if_neg h2]
  split_ifs <;> exact ⟨rfl, hf⟩

theorem scan_diastolic_none (p d : Nat → ℚ) (m : ℚ) (k : Nat) :
    ∀ (i : Nat) (c : Crossing),
      (∀ j, i ≤ j → j < i + k → ¬ diastolicBand (d j) m) →
      (forLoop (crossingStep p d m) i k c).diastolic = c.diastolic := by
  induction k with
  | zero => intro i c _; rfl
  | succ k ih =>
    intro i c h
    simp only [forLoop]
    rw [ih (i + 1) _ (fun j h1 h2 => h j (by omega) (by omega))]
    exact crossingStep_diastolic_out p d m i c (h i (le_refl i) (by omega))

theorem scan_diastolic_last (p d : Nat → ℚ) (m : ℚ) (k : Nat) :
    ∀ (i : Nat) (c : Crossing) (j : Nat), i ≤ j → j < i + k → diastolicBand (d j) m →
      (∀ l, j < l → l < i + k → ¬ diastolicBand (d l) m) →
      (forLoop (crossingStep p d m) i k c).diastolic = truncToInt (p j) := by
  induction k with
  | zero => intro i c j h1 h2; omega
  | succ k ih =>
    intro i c j h1 h2 hj hlast
    simp only [forLoop]
    rcases Nat.eq_or_lt_of_le h1 with he | hlt
    · subst he
      rw [scan_diastolic_none p d m k (i + 1) _ (fun l h3 h4 => hlast l (by omega) (by omega))]
      exact crossingStep_diastolic_in p d m i c hj
    · exact ih (i + 1) _ j (by omega) (by omega) hj (fun l h3 h4 => hlast l h3 (by omega))

theorem scan_systolic_found (p d : Nat → ℚ) (m : ℚ) (k : Nat) :
    ∀ (i : Nat) (c : Crossing), c.foundSystolic = true →
      (forLoop (crossingStep p d m) i k c).systolic = c.systolic := by
  induction k with
  | zero => intro i c _; rfl
  | succ k ih =>
    intro i c hf
    simp only [forLoop]
    obtain ⟨h1, h2⟩ := crossingStep_systolic_found p d m i c hf
    rw [ih (i + 1) _ h2, h1]

theorem scan_systolic_none (p d : Nat → ℚ) (m : ℚ) (k : Nat) :
    ∀ (i : Nat) (c : Crossing),
      (∀ j, i ≤ j → j < i + k → ¬ systolicBand (d j) m) →
      (forLoop (crossingStep p d m) i k c).systolic = c.systolic := by
  induction k with
  | zero => intro i c _; rfl
  | succ k ih =>
    intro i c h
    simp only [forLoop]
    rw [ih (i + 1) _ (fun j h1 h2 => h j (by omega) (by omega))]
    exact (crossingStep_systolic_out p d m i c (h i (le_refl i) (by omega))).1

theorem scan_systolic_first (p d : Nat → ℚ) (m : ℚ) (k : Nat) :
    ∀ (i : Nat) (c : Crossing) (j : Nat), c.foundSystolic = false → i ≤ j → j < i + k →
      systolicBand (d j) m → (∀ l, i ≤ l → l < j → ¬ systolicBand (d l) m) →
      (forLoop (crossingStep p d m) i k c).systolic = truncToInt (p j) := by
  induction k with
  | zero => intro i c j _ h1 h2; omega
  | succ k ih =>
    intro i c j hf h1 h2 hj hfirst
    simp only [forLoop]
    rcases Nat.eq_or_lt_of_le h1 with he | hlt
    · subst he
      obtain ⟨h3, h4⟩ := crossingStep_systolic_first p d m i c hj hf
      rw [scan_systolic_found p d m k (i + 1) _ h4, h3]
    · obtain ⟨_, h4⟩ := crossingStep_systolic_out p d m i c (hfirst i (le_refl i) hlt)
      exact ih (i + 1) _ j (by rw [h4, hf]) (by omega) (by omega) hj
        (fun l h5 h6 => hfirst l (by omega) h6)

/-! ## Auxiliary lemmas: deflation loop under a constant pressure -/

theorem deflateStep_constant (rx : List Nat) (p : ℚ) (hp : sample rx = p) (d : Deflation)
    (h1 : d.myCalculatedPressure = p) (h2 : d.secondPressure = p) (h3 : d.avgSlope = 0)
    (h4 : d.pressureCount ≤ 1500) :
    (deflateStep d rx).myCalculatedPressure = p ∧
    (deflateStep d rx).secondPressure = p ∧
    (deflateStep d rx).avgSlope = 0 ∧
    (deflateStep d rx).pressureCount
      = (if d.pressureCount < 1500 then d.pressureCount + 1 else d.pressureCount) ∧
    (deflateStep d rx).numWarnings
      = (if d.pressureCount % 50 = 0 then (d.numWarnings + 1) % 256 else d.numWarnings) ∧
    (deflateStep d rx).report
      = (if d.pressureCount % 50 = 0 then RateMsg.tooSlow :: d.report else d.report) := by
  by_cases c1 : d.pressureCount % 50 = 0 <;> by_cases c2 : d.pressureCount < 1500 <;>
    by_cases c3 : (d.pressureCount + 1) % 50 = 0 <;>
    norm_num [deflateStep, checkSlope, storeSample, MAX_SAMPLES, c1, c2, c3, h1, h2, h3, hp] <;>
    omega

/-- Number of slope checks among the first `k` passes of the deflation loop. -/
theorem checks_succ (k : Nat) :
    (min (k + 1) 1500 + 49) / 50 + (k + 1 - 1500)
      = (min k 1500 + 49) / 50 + (k - 1500) + (if min k 1500 % 50 = 0 then 1 else 0) := by
  split_ifs <;> omega

theorem iterate_constant (rx : List Nat) (p : ℚ) (hp : sample rx = p) (d0 : Deflation)
    (h1 : d0.myCalculatedPressure = p) (h2 : d0.secondPressure = p) (h3 : d0.avgSlope = 0)
    (h4 : d0.pressureCount = 0) (h5 : d0.numWarnings = 0) (h6 : d0.report = []) (k : Nat) :
    ((fun s => deflateStep s rx)^[k] d0).myCalculatedPressure = p ∧
    ((fun s => deflateStep s rx)^[k] d0).secondPressure = p ∧
    ((fun s => deflateStep s rx)^[k] d0).avgSlope = 0 ∧
    ((fun s => deflateStep s rx)^[k] d0).pressureCount = min k 1500 ∧
    ((fun s => deflateStep s rx)^[k] d0).numWarnings
      = ((min k 1500 + 49) / 50 + (k - 1500)) % 256 ∧
    ((fun s => deflateStep s rx)^[k] d0).report
      = List.replicate ((min k 1500 + 49) / 50 + (k - 1500)) RateMsg.tooSlow := by
  induction k with
  | zero => simp [h1, h2, h3, h4, h5, h6]
  | succ k ih =>
    obtain ⟨a1, a2, a3, a4, a5, a6⟩ := ih
    rw [Function.iterate_succ_apply']
    obtain ⟨b1, b2, b3, b4, b5, b6⟩ :=
      deflateStep_constant rx p hp _ a1 a2 a3 (by rw [a4]; omega)
    refine ⟨b1, b2, b3, ?_, ?_, ?_⟩
    · rw [b4, a4]; split_ifs <;> omega
    · rw [b5, a4, a5, checks_succ]; split_ifs <;> omega
    · rw [b6, a4, a6, checks_succ]
      split_ifs
      · rw [List.replicate_succ]
      · simp only [Nat.add_zero]

theorem deflate_run (rx rxEnd : List Nat) (hrx : sample rx > 40) (hend : ¬ sample rxEnd > 40)
    (n : Nat) :
    ∀ d : Deflation, d.myCalculatedPressure > 40 →
      deflate (List.replicate n rx ++ [rxEnd]) d
        = some (deflateStep ((fun s => deflateStep s rx)^[n] d) rxEnd) := by
  induction n with
  | zero =>
    intro d hd
    have h : ¬ (deflateStep d rxEnd).myCalculatedPressure > 40 := hend
    simp only [List.replicate_zero, List.nil_append, deflate, Function.iterate_zero, id_eq]
    rw [if_pos hd, if_neg h]
  | succ n ih =>
    intro d hd
    have h : (deflateStep d rx).myCalculatedPressure > 40 := hrx
    rw [List.replicate_succ, List.cons_append]
    simp only [deflate]
    rw [if_pos hd, ih _ h, Function.iterate_succ_apply]

/-! ## Auxiliary lemmas: sample data -/

theorem sample_rx170 : sample rx170 = 170 := by decide!

theorem sample_rx175 : sample rx175 = 175 := by decide!

theorem sample_rx100 : sample rx100 = 100 := by decide!

theorem sample_rx40 : sample rx40 = 40 := by decide!

theorem sample_rxBusy : sample rxBusy = -1 := by decide!

theorem loop_held (mem : Uninit) (tail : List (List Nat)) :
    loop (rx170 :: rx175 :: rx170 :: tail) mem
      = match deflate tail
          { myCalculatedPressure := 170, secondPressure := 170, avgSlope := 0, numWarnings := 0,
            pressureCount := 0, pressures := mem.pressures, report := [] } with
        | none => Outcome.awaitingReading
        | some d =>
          if d.numWarnings > 5 then Outcome.unreliable d.report
          else
            Outcome.estimate d.report
              (extract d.pressures d.pressureCount mem.averages mem.differences) := by
  norm_num [loop, awaitPumpStart, sample_rx170, sample_rx175]

theorem held_final (mem : Uninit) :
    ∃ d : Deflation,
      deflate (List.replicate 1725 rx170 ++ [rx40])
          { myCalculatedPressure := 170, secondPressure := 170, avgSlope := 0, numWarnings := 0,
            pressureCount := 0, pressures := mem.pressures, report := [] } = some d ∧
      d.numWarnings = 0 ∧ d.report = List.replicate 256 RateMsg.tooSlow := by
  have hrun := deflate_run rx170 rx40 (by rw [sample_rx170]; norm_num)
    (by rw [sample_rx40]; norm_num) 1725
    { myCalculatedPressure := 170, secondPressure := 170, avgSlope := 0, numWarnings := 0,
      pressureCount := 0, pressures := mem.pressures, report := [] } (by norm_num)
  have hit := iterate_constant rx170 170 sample_rx170
    { myCalculatedPressure := 170, secondPressure := 170, avgSlope := 0, numWarnings := 0,
      pressureCount := 0, pressures := mem.pressures, report := [] } rfl rfl rfl rfl rfl rfl 1726
  rw [Function.iterate_succ_apply'] at hit
  obtain ⟨_, _, _, _, h5, h6⟩ := hit
  refine ⟨_, hrun, ?_, ?_⟩
  · exact h5
  · exact h6

/-! ## Auxiliary lemmas: counted loops, rolling average, largest oscillation -/

theorem forLoop_invariant {σ : Type} (body : Nat → σ → σ) (P : Nat → σ → Prop) :
    ∀ (count i : Nat) (s : σ), P i s →
      (∀ j t, i ≤ j → j < i + count → P j t → P (j + 1) (body j t)) →
      P (i + count) (forLoop body i count s) := by
  intro count
  induction count with
  | zero => intro i s h _; exact h
  | succ k ih =>
    intro i s h hstep
    have h1 := ih (i + 1) (body i s) (hstep i s (le_refl i) (by omega) h)
      (fun j t h2 h3 h4 => hstep j t (by omega) (by omega) h4)
    have e : i + 1 + k = i + (k + 1) := by omega
    rw [e] at h1
    exact h1

theorem rollingAverage_boot (p a0 : Nat → ℚ) :
    (forLoop (fun i (r : Rolling) =>
        ({ tempSum := r.tempSum + p i, averages := Function.update r.averages i (p i) } : Rolling))
      0 5 { tempSum := 0, averages := a0 }).tempSum = p 0 + p 1 + p 2 + p 3 + p 4 ∧
    (∀ j, j < 5 →
      (forLoop (fun i (r : Rolling) =>
        ({ tempSum := r.tempSum + p i, averages := Function.update r.averages i (p i) } : Rolling))
      0 5 { tempSum := 0, averages := a0 }).averages j = p j) ∧
    (∀ j, 5 ≤ j →
      (forLoop (fun i (r : Rolling) =>
        ({ tempSum := r.tempSum + p i, averages := Function.update r.averages i (p i) } : Rolling))
      0 5 { tempSum := 0, averages := a0 }).averages j = a0 j) := by
  simp only [forLoop]
  refine ⟨by ring, fun j hj => ?_, fun j hj => ?_⟩
  · interval_cases j <;> simp [Function.update]
  · have h0 : j ≠ 0 := by omega
    have h1 : j ≠ 1 := by omega
    have h2 : j ≠ 2 := by omega
    have h3 : j ≠ 3 := by omega
    have h4 : j ≠ 4 := by omega
    simp [Function.update, h0, h1, h2, h3, h4]

theorem rollingAverage_spec (p : Nat → ℚ) (n : Nat) (a0 : Nat → ℚ) :
    (∀ j, j < 5 → (rollingAverage p n a0).averages j = p j) ∧
    (∀ j, 5 ≤ j → j < n → (rollingAverage p n a0).averages j
      = (p (j - 4) + p (j - 3) + p (j - 2) + p (j - 1) + p j) / 5) ∧
    (∀ j, 5 ≤ j → n ≤ j → (rollingAverage p n a0).averages j = a0 j) := by
  obtain ⟨b1, b2, b3⟩ := rollingAverage_boot p a0
  have key := forLoop_invariant
    (fun i (r : Rolling) =>
      ({ tempSum := r.tempSum - p (i - 5) + p i,
         averages := Function.update r.averages i ((r.tempSum - p (i - 5) + p i) / 5) } : Rolling))
    (fun k r => r.tempSum = p (k - 5) + p (k - 4) + p (k - 3) + p (k - 2) + p (k - 1) ∧
      (∀ j, j < 5 → r.averages j = p j) ∧
      (∀ j, 5 ≤ j → j < k → r.averages j
        = (p (j - 4) + p (j - 3) + p (j - 2) + p (j - 1) + p j) / 5) ∧
      (∀ j, 5 ≤ j → k ≤ j → r.averages j = a0 j))
    (n - 5) 5 _ ⟨b1, b2, fun j h1 h2 => by omega, fun j h1 _ => b3 j h1⟩
    (by
      rintro k r hk1 hk2 ⟨i1, i2, i3, i4⟩
      have e4 : k + 1 - 5 = k - 4 := by omega
      have e3 : k + 1 - 4 = k - 3 := by omega
      have e2 : k + 1 - 3 = k - 2 := by omega
      have e1 : k + 1 - 2 = k - 1 := by omega
      have e0 : k + 1 - 1 = k := by omega
      refine ⟨?_, fun j hj => ?_, fun j hj1 hj2 => ?_, fun j hj1 hj2 => ?_⟩
      · simp only [e4, e3, e2, e1, e0]
        rw [i1]; ring
      · have hne : j ≠ k := by omega
        simp only [Function.update_noteq hne]
        exact i2 j hj
      · rcases Nat.lt_or_ge j k with hlt | hge
        · have hne : j ≠ k := by omega
          simp only [Function.update_noteq hne]
          exact i3 j hj1 hlt
        · have he : j = k := by omega
          subst he
          simp only [Function.update_same]
          rw [i1]; ring
      · have hne : j ≠ k := by omega
        simp only [Function.update_noteq hne]
        exact i4 j hj1 (by omega))
  obtain ⟨_, k2, k3, k4⟩ := key
  refine ⟨k2, fun j h1 h2 => k3 j h1 (by omega), fun j h1 h2 => k4 j h1 (by omega)⟩

theorem findMaxOscillation_spec (p a : Nat → ℚ) (n : Nat) (d0 : Nat → ℚ) :
    (∀ j, 5 ≤ j → j < n → (findMaxOscillation p a n d0).differences j = 0.7 + p j - a j) ∧
    (∀ j, j < 5 ∨ n ≤ j → (findMaxOscillation p a n d0).differences j = d0 j) ∧
    (∀ j, 5 ≤ j → j < n → 0.7 + p j - a j ≤ (findMaxOscillation p a n d0).maxOscillation) ∧
    0.7 + p 5 - a 5 ≤ (findMaxOscillation p a n d0).maxOscillation ∧
    ((findMaxOscillation p a n d0).maxOscillation = 0.7 + p 5 - a 5 ∨
      ∃ j, 5 ≤ j ∧ j < n ∧ (findMaxOscillation p a n d0).maxOscillation = 0.7 + p j - a j) := by
  have key := forLoop_invariant
    (fun i (e : Envelope) =>
      ({ differences := Function.update e.differences i (0.7 + p i - a i),
         maxOscillation :=
          if 0.7 + p i - a i > e.maxOscillation then 0.7 + p i - a i else e.maxOscillation } :
        Envelope))
    (fun k e =>
      (∀ j, 5 ≤ j → j < k → e.differences j = 0.7 + p j - a j) ∧
      (∀ j, j < 5 ∨ k ≤ j → e.differences j = d0 j) ∧
      (∀ j, 5 ≤ j → j < k → 0.7 + p j - a j ≤ e.maxOscillation) ∧
      0.7 + p 5 - a 5 ≤ e.maxOscillation ∧
      (e.maxOscillation = 0.7 + p 5 - a 5 ∨
        ∃ j, 5 ≤ j ∧ j < k ∧ e.maxOscillation = 0.7 + p j - a j))
    (n - 5) 5 { differences := d0, maxOscillation := 0.7 + p 5 - a 5 }
    ⟨fun j h1 h2 => by omega, fun j _ => rfl, fun j h1 h2 => by omega, le_refl _, Or.inl rfl⟩
    (by
      rintro k e hk1 hk2 ⟨i1, i2, i3, i4, i5⟩
      have hmax : ∀ x : ℚ, x ≤ e.maxOscillation →
          x ≤ (if 0.7 + p k - a k > e.maxOscillation then 0.7 + p k - a k
            else e.maxOscillation) := by
        intro x hx
        split_ifs with hc
        · exact le_trans hx (le_of_lt hc)
        · exact hx
      refine ⟨fun j hj1 hj2 => ?_, fun j hj => ?_, fun j hj1 hj2 => ?_, hmax _ i4, ?_⟩
      · rcases Nat.lt_or_ge j k with hlt | hge
        · have hne : j ≠ k := by omega
          simp only [Function.update_noteq hne]
          exact i1 j hj1 hlt
        · have he : j = k := by omega
          subst he
          simp only [Function.update_same]
      · have hne : j ≠ k := by omega
        simp only [Function.update_noteq hne]
        exact i2 j (by omega)
      · rcases Nat.lt_or_ge j k with hlt | hge
        · exact hmax _ (i3 j hj1 hlt)
        · have he : j = k := by omega
          subst he
          show 0.7 + p j - a j ≤ (if 0.7 + p j - a j > e.maxOscillation then 0.7 + p j - a j
            else e.maxOscillation)
          split_ifs with hc
          · exact le_refl _
          · exact not_lt.mp hc
      · show (if 0.7 + p k - a k > e.maxOscillation then 0.7 + p k - a k
            else e.maxOscillation) = 0.7 + p 5 - a 5 ∨
          ∃ j, 5 ≤ j ∧ j < k + 1 ∧ (if 0.7 + p k - a k > e.maxOscillation then 0.7 + p k - a k
            else e.maxOscillation) = 0.7 + p j - a j
        split_ifs with hc
        · exact Or.inr ⟨k, hk1, by omega, rfl⟩
        · rcases i5 with h5 | ⟨j, hj1, hj2, hj3⟩
          · exact Or.inl h5
          · exact Or.inr ⟨j, hj1, by omega, hj3⟩)
  obtain ⟨k1, k2, k3, k4, k5⟩ := key
  refine ⟨fun j h1 h2 => k1 j h1 (by omega), fun j h => k2 j (by omega),
    fun j h1 h2 => k3 j h1 (by omega), k4, ?_⟩
  rcases k5 with h5 | ⟨j, hj1, hj2, hj3⟩
  · exact Or.inl h5
  · exact Or.inr ⟨j, hj1, by omega, hj3⟩

/-! ## Auxiliary lemmas: oscillation count and heart rate -/

theorem countOscillations_eq (d : Nat → ℚ) (n : Nat) :
    countOscillations d n = forLoop (beatStep d) 5 (n - 5)
      { numOscillations := 0, foundFirst := false, firstIndex := 0, lastIndex := 0 } := rfl

theorem beatStep_above (d : Nat → ℚ) (i : Nat) (b : Beats) (h : d i > 1) :
    beatStep d i b =
      { numOscillations := (b.numOscillations + 1) % 2 ^ 8,
        foundFirst := true,
        firstIndex := if b.foundFirst = false then (i : Int) else b.firstIndex,
        lastIndex := (i : Int) } := by
  unfold beatStep
  rw [if_pos h]

theorem beatStep_below (d : Nat → ℚ) (i : Nat) (b : Beats) (h : ¬ d i > 1) :
    beatStep d i b = b := by
  unfold beatStep
  rw [if_neg h]

theorem beats_none (d : Nat → ℚ) (k : Nat) :
    ∀ (i : Nat) (b : Beats), (∀ j, i ≤ j → j < i + k → ¬ d j > 1) →
      forLoop (beatStep d) i k b = b := by
  induction k with
  | zero => intro i b _; rfl
  | succ k ih =>
    intro i b h
    simp only [forLoop]
    rw [beatStep_below d i b (h i (le_refl i) (by omega))]
    exact ih (i + 1) b (fun j h1 h2 => h j (by omega) (by omega))

theorem beats_count (d : Nat → ℚ) (k : Nat) :
    ∀ (i : Nat) (b : Beats), b.numOscillations < 256 →
      (forLoop (beatStep d) i k b).numOscillations
        = (b.numOscillations + (List.range' i k).countP (fun j => decide (d j > 1))) % 256 := by
  induction k with
  | zero =>
    intro i b hb
    simp only [forLoop, List.range'_zero, List.countP_nil, Nat.add_zero]
    omega
  | succ k ih =>
    intro i b hb
    simp only [forLoop]
    rw [List.range'_succ, List.countP_cons]
    by_cases h : d i > 1
    · rw [beatStep_above d i b h, ih (i + 1) _ (by
        show (b.numOscillations + 1) % 2 ^ 8 < 256
        omega)]
      simp only [h, decide_True, if_true]
      show ((b.numOscillations + 1) % 2 ^ 8 + _) % 256 = _
      omega
    · rw [beatStep_below d i b h, ih (i + 1) b hb]
      simp only [h, decide_False]
      simp

theorem beats_last (d : Nat → ℚ) (k : Nat) :
    ∀ (i : Nat) (b : Beats) (l : Nat), i ≤ l → l < i + k → d l > 1 →
      (∀ j, l < j → j < i + k → ¬ d j > 1) →
      (forLoop (beatStep d) i k b).lastIndex = (l : Int) ∧
      (forLoop (beatStep d) i k b).foundFirst = true := by
  induction k with
  | zero => intro i b l h1 h2; omega
  | succ k ih =>
    intro i b l h1 h2 hl hlast
    simp only [forLoop]
    rcases Nat.eq_or_lt_of_le h1 with he | hlt
    · subst he
      rw [beats_none d k (i + 1) _ (fun j h3 h4 => hlast j (by omega) (by omega)),
        beatStep_above d i b hl]
      exact ⟨rfl, rfl⟩
    · exact ih (i + 1) _ l (by omega) (by omega) hl (fun j h3 h4 => hlast j h3 (by omega))

theorem beats_first_found (d : Nat → ℚ) (k : Nat) :
    ∀ (i : Nat) (b : Beats), b.foundFirst = true →
      (forLoop (beatStep d) i k b).firstIndex = b.firstIndex := by
  induction k with
  | zero => intro i b _; rfl
  | succ k ih =>
    intro i b hf
    simp only [forLoop]
    by_cases h : d i > 1
    · rw [beatStep_above d i b h, ih (i + 1) _ rfl]
      simp [hf]
    · rw [beatStep_below d i b h]
      exact ih (i + 1) b hf

theorem beats_first (d : Nat → ℚ) (k : Nat) :
    ∀ (i : Nat) (b : Beats) (f : Nat), b.foundFirst = false → i ≤ f → f < i + k → d f > 1 →
      (∀ j, i ≤ j → j < f → ¬ d j > 1) →
      (forLoop (beatStep d) i k b).firstIndex = (f : Int) := by
  induction k with
  | zero => intro i b f _ h1 h2; omega
  | succ k ih =>
    intro i b f hf h1 h2 hd hfirst
    simp only [forLoop]
    rcases Nat.eq_or_lt_of_le h1 with he | hlt
    · subst he
      rw [beatStep_above d i b hd, beats_first_found d k (i + 1) _ rfl]
      simp [hf]
    · rw [beatStep_below d i b (hfirst i (le_refl i) hlt)]
      exact ih (i + 1) b f hf (by omega) (by omega) hd (fun j h3 h4 => hfirst j (by omega) h4)

theorem oscillationCount_le (d : Nat → ℚ) (n f l : Nat) (h1 : 5 ≤ f) (h2 : f ≤ l) (h3 : l < n)
    (hfirst : ∀ j, 5 ≤ j → j < f → ¬ d j > 1) (hlast : ∀ j, l < j → j < n → ¬ d j > 1) :
    oscillationCount d n ≤ l - f + 1 := by
  have e1 : List.range' 5 (n - 5)
      = List.range' 5 (f - 5) ++ (List.range' f (l - f + 1) ++ List.range' (l + 1) (n - l - 1)) := by
    have a1 : List.range' f (l - f + 1) ++ List.range' (f + (l - f + 1)) (n - l - 1)
        = List.range' f (n - l - 1 + (l - f + 1)) := List.range'_append_1 _ _ _
    have a2 : List.range' 5 (f - 5) ++ List.range' (5 + (f - 5)) (n - l - 1 + (l - f + 1))
        = List.range' 5 (n - l - 1 + (l - f + 1) + (f - 5)) := List.range'_append_1 _ _ _
    have b1 : f + (l - f + 1) = l + 1 := by omega
    have b2 : 5 + (f - 5) = f := by omega
    have b3 : n - l - 1 + (l - f + 1) + (f - 5) = n - 5 := by omega
    rw [b1] at a1
    rw [b2, b3] at a2
    rw [a1, a2]
  have z1 : (List.range' 5 (f - 5)).countP (fun i => decide (d i > 1)) = 0 := by
    rw [List.countP_eq_zero]
    intro a ha
    rw [List.mem_range'_1] at ha
    simpa using hfirst a ha.1 (by omega)
  have z2 : (List.range' (l + 1) (n - l - 1)).countP (fun i => decide (d i > 1)) = 0 := by
    rw [List.countP_eq_zero]
    intro a ha
    rw [List.mem_range'_1] at ha
    simpa using hlast a (by omega) (by omega)
  have z3 : (List.range' f (l - f + 1)).countP (fun i => decide (d i > 1)) ≤ l - f + 1 := by
    have := @List.countP_le_length _ (fun i => decide (d i > 1)) (List.range' f (l - f + 1))
    rw [List.length_range'] at this
    exact this
  unfold oscillationCount
  rw [e1, List.countP_append, List.countP_append, z1, z2]
  omega

theorem roundHalfEven_bounds (y : ℚ) (hy : 0 ≤ y) :
    0 ≤ roundHalfEven y ∧ ((roundHalfEven y : Int) : ℚ) ≤ y + 1 / 2 := by
  have h0 : 0 ≤ ⌊y⌋ := Int.floor_nonneg.mpr hy
  have h1 : ((⌊y⌋ : Int) : ℚ) ≤ y := Int.floor_le y
  unfold roundHalfEven
  simp only []
  split_ifs with c1 c2 c3
  · exact ⟨h0, by linarith⟩
  · refine ⟨by omega, ?_⟩
    push_cast
    linarith
  · exact ⟨h0, by linarith⟩
  · refine ⟨by omega, ?_⟩
    push_cast
    linarith

theorem roundFloat_bounds (x : ℚ) (h0 : 0 ≤ x) (h1 : x < 2 ^ 24) :
    0 ≤ roundFloat x ∧ roundFloat x ≤ x + 1 / 2 := by
  unfold roundFloat
  by_cases hx : x = 0
  · rw [if_pos hx, hx]
    norm_num
  · rw [if_neg hx]
    have hn : ¬ x < 0 := not_lt.mpr h0
    simp only [if_neg hn, if_pos h1]
    generalize scaleBits (x.den + 24) x = k
    have hk : (0 : ℚ) < 2 ^ k := by positivity
    have hk1 : (1 : ℚ) ≤ 2 ^ k := one_le_pow₀ (by norm_num)
    obtain ⟨b0, b1⟩ := roundHalfEven_bounds (x * 2 ^ k) (by positivity)
    have b0q : (0 : ℚ) ≤ ((roundHalfEven (x * 2 ^ k) : Int) : ℚ) := by exact_mod_cast b0
    refine ⟨by positivity, ?_⟩
    rw [div_le_iff₀ hk]
    nlinarith

theorem count_in_float : ∀ c : Nat, c < 256 →
    toUnsigned 8 (truncToInt (roundFloat ((c : ℚ) / roundFloat 2.6))) = (⌊(c : ℚ) / 2.6⌋).toNat := by
  decide!

theorem corrected_count (c : Nat) (hc : c ≤ 255) :
    ((toUnsigned 8 (truncToInt (roundFloat ((c : ℚ) / roundFloat 2.6))) : Nat) : ℚ)
      = ((⌊(c : ℚ) / 2.6⌋ : Int) : ℚ) ∧
    0 ≤ ⌊(c : ℚ) / 2.6⌋ ∧ ((⌊(c : ℚ) / 2.6⌋ : Int) : ℚ) ≤ (c : ℚ) / 2.6 := by
  have hq : (0 : ℚ) ≤ (c : ℚ) / 2.6 := by positivity
  have hfl0 : 0 ≤ ⌊(c : ℚ) / 2.6⌋ := Int.floor_nonneg.mpr hq
  have hle : ((⌊(c : ℚ) / 2.6⌋ : Int) : ℚ) ≤ (c : ℚ) / 2.6 := Int.floor_le _
  refine ⟨?_, hfl0, hle⟩
  rw [count_in_float c (by omega)]
  have e2 : (((⌊(c : ℚ) / 2.6⌋).toNat : Nat) : Int) = ⌊(c : ℚ) / 2.6⌋ := Int.toNat_of_nonneg hfl0
  rw [← Int.cast_natCast, e2]

theorem heartRate_value (b : Beats) (c f l : Nat) (hc : b.numOscillations = c) (hc2 : c ≤ 255)
    (hf : b.firstIndex = (f : Int)) (hl : b.lastIndex = (l : Int)) (hfl : f < l) :
    heartRate b = some (roundFloat (roundFloat (roundFloat
      (((⌊(c : ℚ) / 2.6⌋ : Int) : ℚ) / ((l : ℚ) - (f : ℚ))) * 50) * 60)) := by
  obtain ⟨e1, _, _⟩ := corrected_count c hc2
  have hne : (((l : Int) - (f : Int) : Int) : ℚ) ≠ 0 := by
    have : (f : ℚ) < (l : ℚ) := by exact_mod_cast hfl
    push_cast
    linarith
  unfold heartRate
  simp only [hc, hf, hl]
  rw [if_neg hne, e1]
  push_cast
  rfl

theorem heartRate_fits (c f l : Nat) (hc : c ≤ 255) (hfl : f < l) (hcl : c ≤ l - f + 1) :
    castInt (some (roundFloat (roundFloat (roundFloat
        (((⌊(c : ℚ) / 2.6⌋ : Int) : ℚ) / ((l : ℚ) - (f : ℚ))) * 50) * 60)))
      = some (truncToInt (roundFloat (roundFloat (roundFloat
        (((⌊(c : ℚ) / 2.6⌋ : Int) : ℚ) / ((l : ℚ) - (f : ℚ))) * 50) * 60))) ∧
    0 ≤ truncToInt (roundFloat (roundFloat (roundFloat
        (((⌊(c : ℚ) / 2.6⌋ : Int) : ℚ) / ((l : ℚ) - (f : ℚ))) * 50) * 60)) := by
  obtain ⟨_, h0, hle⟩ := corrected_count c hc
  have hL : (1 : ℚ) ≤ (l : ℚ) - (f : ℚ) := by
    have : (f : ℚ) + 1 ≤ (l : ℚ) := by exact_mod_cast hfl
    linarith
  have hLpos : (0 : ℚ) < (l : ℚ) - (f : ℚ) := by linarith
  have hcq : (c : ℚ) ≤ (l : ℚ) - (f : ℚ) + 1 := by
    have h1 : ((c : Nat) : ℚ) ≤ ((l - f + 1 : Nat) : ℚ) := by exact_mod_cast hcl
    have h2 : ((l - f + 1 : Nat) : ℚ) = (l : ℚ) - (f : ℚ) + 1 := by
      have : f ≤ l := le_of_lt hfl
      push_cast [Nat.cast_sub this]
      ring
    linarith
  have hfl0 : (0 : ℚ) ≤ ((⌊(c : ℚ) / 2.6⌋ : Int) : ℚ) := by exact_mod_cast h0
  have hx0 : (0 : ℚ) ≤ ((⌊(c : ℚ) / 2.6⌋ : Int) : ℚ) / ((l : ℚ) - (f : ℚ)) := by positivity
  have hx1 : ((⌊(c : ℚ) / 2.6⌋ : Int) : ℚ) / ((l : ℚ) - (f : ℚ)) ≤ 1 := by
    have h3 : ((⌊(c : ℚ) / 2.6⌋ : Int) : ℚ) ≤ ((l : ℚ) - (f : ℚ) + 1) / 2.6 := by
      have : (c : ℚ) / 2.6 ≤ ((l : ℚ) - (f : ℚ) + 1) / 2.6 := by
        apply div_le_div_of_nonneg_right hcq (by norm_num)
      linarith
    rw [div_le_iff₀ hLpos]
    have h4 : ((l : ℚ) - (f : ℚ) + 1) / 2.6 ≤ 1 * ((l : ℚ) - (f : ℚ)) := by
      rw [div_le_iff₀ (by norm_num)]
      linarith
    linarith
  generalize ((⌊(c : ℚ) / 2.6⌋ : Int) : ℚ) / ((l : ℚ) - (f : ℚ)) = x at hx0 hx1 ⊢
  obtain ⟨a0, a1⟩ := roundFloat_bounds x hx0 (by norm_num; linarith)
  obtain ⟨b0, b1⟩ := roundFloat_bounds (roundFloat x * 50) (by positivity)
    (by norm_num; linarith)
  obtain ⟨c0, c1⟩ := roundFloat_bounds (roundFloat (roundFloat x * 50) * 60) (by positivity)
    (by norm_num; linarith)
  generalize roundFloat (roundFloat (roundFloat x * 50) * 60) = v at c0 c1 ⊢
  have hv1 : v ≤ 32767 := by linarith
  have t0 : truncToInt v = ⌊v⌋ := by unfold truncToInt; rw [if_pos c0]
  have t1 : 0 ≤ ⌊v⌋ := Int.floor_nonneg.mpr c0
  have t2 : ⌊v⌋ ≤ 32767 := by
    have : ((⌊v⌋ : Int) : ℚ) ≤ 32767 := le_trans (Int.floor_le _) hv1
    exact_mod_cast this
  refine ⟨?_, by rw [t0]; exact t1⟩
  unfold castInt
  simp only []
  rw [if_pos ⟨by rw [t0]; omega, by rw [t0]; exact t2⟩]

/-! ## Auxiliary lemmas: the stored samples -/

theorem checkSlope_keeps (d : Deflation) :
    (checkSlope d).pressureCount = d.pressureCount ∧ (checkSlope d).pressures = d.pressures ∧
    (checkSlope d).myCalculatedPressure = d.myCalculatedPressure := by
  unfold checkSlope
  split_ifs <;> exact ⟨rfl, rfl, rfl⟩

theorem deflateStep_store (d : Deflation) (rx : List Nat) :
    (deflateStep d rx).myCalculatedPressure = sample rx ∧
    (deflateStep d rx).pressureCount
      = (if d.pressureCount < 1500 then d.pressureCount + 1 else d.pressureCount) ∧
    (deflateStep d rx).pressures
      = (if d.pressureCount < 1500 then
          Function.update d.pressures d.pressureCount d.myCalculatedPressure
        else d.pressures) := by
  obtain ⟨c1, c2, c3⟩ := checkSlope_keeps d
  refine ⟨rfl, ?_, ?_⟩
  · show (storeSample (checkSlope d)).pressureCount = _
    unfold storeSample
    rw [c1]
    simp only [MAX_SAMPLES]
    by_cases h : d.pressureCount < 1500
    · rw [if_pos h, if_pos h]
      have e : (d.pressureCount + 1) % 2 ^ 16 = d.pressureCount + 1 := by omega
      split_ifs <;> exact e
    · rw [if_neg h, if_neg h, c1]
  · show (storeSample (checkSlope d)).pressures = _
    unfold storeSample
    rw [c1]
    simp only [MAX_SAMPLES]
    by_cases h : d.pressureCount < 1500
    · rw [if_pos h, if_pos h]
      split_ifs <;> simp only [c2, c3]
    · rw [if_neg h, if_neg h, c2]

theorem deflate_fold (rxEnd : List Nat) (hend : ¬ sample rxEnd > 40) :
    ∀ (bus : List (List Nat)) (d : Deflation), d.myCalculatedPressure > 40 →
      (∀ rx ∈ bus, sample rx > 40) →
      deflate (bus ++ [rxEnd]) d = some (deflateStep (bus.foldl deflateStep d) rxEnd) := by
  intro bus
  induction bus with
  | nil =>
    intro d hd _
    have h : ¬ (deflateStep d rxEnd).myCalculatedPressure > 40 := hend
    simp only [List.nil_append, deflate, List.foldl_nil]
    rw [if_pos hd, if_neg h]
  | cons rx bus ih =>
    intro d hd hall
    have h : (deflateStep d rx).myCalculatedPressure > 40 := hall rx (List.mem_cons_self _ _)
    simp only [List.cons_append, deflate, List.foldl_cons]
    rw [if_pos hd]
    exact ih _ h (fun r hr => hall r (List.mem_cons_of_mem _ hr))

theorem fold_stores_readings (d0 : Deflation) (h0 : d0.pressureCount = 0) (bus : List (List Nat)) :
    (bus.foldl deflateStep d0).pressureCount = min bus.length 1500 ∧
    (bus.foldl deflateStep d0).myCalculatedPressure = (readings d0 bus).getD bus.length 0 ∧
    (∀ k, k < min bus.length 1500 →
      (bus.foldl deflateStep d0).pressures k = (readings d0 bus).getD k 0) ∧
    (∀ k, min bus.length 1500 ≤ k → (bus.foldl deflateStep d0).pressures k = d0.pressures k) := by
  induction bus using List.reverseRecOn with
  | nil =>
    refine ⟨by simp [h0], by simp [readings], fun k hk => ?_, fun k _ => rfl⟩
    simp at hk
  | append_singleton bus rx ih =>
    obtain ⟨i1, i2, i3, i4⟩ := ih
    obtain ⟨s1, s2, s3⟩ := deflateStep_store (bus.foldl deflateStep d0) rx
    have hlen : (bus ++ [rx]).length = bus.length + 1 := by simp
    have hsnoc : readings d0 (bus ++ [rx]) = readings d0 bus ++ [sample rx] := by
      simp [readings]
    have hrl : (readings d0 bus).length = bus.length + 1 := by simp [readings]
    have hold : ∀ k, k ≤ bus.length →
        (readings d0 (bus ++ [rx])).getD k 0 = (readings d0 bus).getD k 0 := by
      intro k hk
      rw [hsnoc, List.getD_append _ _ _ _ (by omega)]
    have hnew : (readings d0 (bus ++ [rx])).getD (bus.length + 1) 0 = sample rx := by
      rw [hsnoc, List.getD_append_right _ _ _ _ (by omega), hrl]
      simp
    rw [List.foldl_append, List.foldl_cons, List.foldl_nil, hlen]
    refine ⟨?_, ?_, fun k hk => ?_, fun k hk => ?_⟩
    · rw [s2, i1]; split_ifs <;> omega
    · rw [s1, hnew]
    · rw [s3, i1]
      by_cases hfull : min bus.length 1500 < 1500
      · rw [if_pos hfull]
        rcases Nat.lt_or_ge k (min bus.length 1500) with hlt | hge
        · have hne : k ≠ min bus.length 1500 := by omega
          rw [Function.update_noteq hne, i3 k hlt, hold k (by omega)]
        · have he : k = min bus.length 1500 := by omega
          have he2 : k = bus.length := by omega
          rw [he, Function.update_same, i2, ← he, hold k (by omega), he2]
      · rw [if_neg hfull, i3 k (by omega), hold k (by omega)]
    · rw [s3, i1]
      by_cases hfull : min bus.length 1500 < 1500
      · rw [if_pos hfull]
        have hne : k ≠ min bus.length 1500 := by omega
        rw [Function.update_noteq hne]
        exact i4 k (by omega)
      · rw [if_neg hfull]
        exact i4 k (by omega)

theorem readings_snoc_getD (d0 : Deflation) (bus : List (List Nat)) (rx : List Nat) (k : Nat)
    (hk : k ≤ bus.length) :
    (readings d0 (bus ++ [rx])).getD k 0 = (readings d0 bus).getD k 0 := by
  have hsnoc : readings d0 (bus ++ [rx]) = readings d0 bus ++ [sample rx] := by
    simp [readings]
  have hrl : (readings d0 bus).length = bus.length + 1 := by simp [readings]
  rw [hsnoc, List.getD_append _ _ _ _ (by omega)]

theorem deflateStep_full (d : Deflation) (rx : List Nat) (h : d.pressureCount = 1500) :
    (deflateStep d rx).report.length = d.report.length + 1 ∧
    (deflateStep d rx).pressureCount = 1500 ∧
    (deflateStep d rx).avgSlope = d.avgSlope ∧
    (deflateStep d rx).secondPressure = d.secondPressure := by
  have hs : ∀ x : Deflation, x.pressureCount = 1500 → storeSample x = x := by
    intro x hx
    unfold storeSample
    rw [if_neg]
    simp [MAX_SAMPLES, hx]
  have hc : (checkSlope d).pressureCount = 1500 := by rw [(checkSlope_keeps d).1, h]
  show (storeSample (checkSlope d)).report.length = d.report.length + 1 ∧
    (storeSample (checkSlope d)).pressureCount = 1500 ∧
    (storeSample (checkSlope d)).avgSlope = d.avgSlope ∧
    (storeSample (checkSlope d)).secondPressure = d.secondPressure
  rw [hs _ hc]
  refine ⟨?_, hc, ?_, ?_⟩ <;> unfold checkSlope <;> rw [h] <;>
    simp only [show 1500 % 50 = 0 from rfl, if_true] <;> split_ifs <;> simp

/-! ## Auxiliary lemmas: long held run, monotone series, pulse series -/

theorem held_run (mem : Uninit) (n : Nat) :
    ∃ d : Deflation,
      deflate (List.replicate n rx170 ++ [rx40])
          { myCalculatedPressure := 170, secondPressure := 170, avgSlope := 0, numWarnings := 0,
            pressureCount := 0, pressures := mem.pressures, report := [] } = some d ∧
      d.numWarnings = ((min (n + 1) 1500 + 49) / 50 + (n + 1 - 1500)) % 256 ∧
      d.report
        = List.replicate ((min (n + 1) 1500 + 49) / 50 + (n + 1 - 1500)) RateMsg.tooSlow := by
  have hrun := deflate_run rx170 rx40 (by rw [sample_rx170]; norm_num)
    (by rw [sample_rx40]; norm_num) n
    { myCalculatedPressure := 170, secondPressure := 170, avgSlope := 0, numWarnings := 0,
      pressureCount := 0, pressures := mem.pressures, report := [] } (by norm_num)
  have hit := iterate_constant rx170 170 sample_rx170
    { myCalculatedPressure := 170, secondPressure := 170, avgSlope := 0, numWarnings := 0,
      pressureCount := 0, pressures := mem.pressures, report := [] } rfl rfl rfl rfl rfl rfl
    (n + 1)
  rw [Function.iterate_succ_apply'] at hit
  obtain ⟨_, _, _, _, h5, h6⟩ := hit
  exact ⟨_, hrun, h5, h6⟩

theorem extract_heartRate (p : Nat → ℚ) (n : Nat) (a0 d0 : Nat → ℚ) :
    (extract p n a0 d0).heartRateBPM
      = castInt (heartRate (countOscillations
          (findMaxOscillation p (rollingAverage p n a0).averages n d0).differences n)) := rfl

theorem extract_systolic (p : Nat → ℚ) (n : Nat) (a0 d0 : Nat → ℚ) :
    (extract p n a0 d0).systolic
      = (findCrossings p (findMaxOscillation p (rollingAverage p n a0).averages n d0).differences
          (findMaxOscillation p (rollingAverage p n a0).averages n d0).maxOscillation
          n).systolic := rfl

theorem extract_diastolic (p : Nat → ℚ) (n : Nat) (a0 d0 : Nat → ℚ) :
    (extract p n a0 d0).diastolic
      = (findCrossings p (findMaxOscillation p (rollingAverage p n a0).averages n d0).differences
          (findMaxOscillation p (rollingAverage p n a0).averages n d0).maxOscillation
          n).diastolic := rfl

theorem extract_magnitude (p : Nat → ℚ) (n : Nat) (a0 d0 : Nat → ℚ) (j : Nat)
    (h1 : 5 ≤ j) (h2 : j < n) :
    (findMaxOscillation p (rollingAverage p n a0).averages n d0).differences j
      = 0.7 + p j - (p (j - 4) + p (j - 3) + p (j - 2) + p (j - 1) + p j) / 5 := by
  rw [(findMaxOscillation_spec p _ n d0).1 j h1 h2, (rollingAverage_spec p n a0).2.1 j h1 h2]

theorem heartRate_none_of_no_beat (d : Nat → ℚ) (n : Nat)
    (h : ∀ j, 5 ≤ j → j < n → ¬ d j > 1) :
    countOscillations d n
      = { numOscillations := 0, foundFirst := false, firstIndex := 0, lastIndex := 0 } ∧
    heartRate (countOscillations d n) = none ∧
    castInt (heartRate (countOscillations d n)) = none := by
  have e : countOscillations d n
      = { numOscillations := 0, foundFirst := false, firstIndex := 0, lastIndex := 0 } := by
    rw [countOscillations_eq]
    exact beats_none d (n - 5) 5 _ (fun j h1 h2 => h j h1 (by omega))
  have e2 : heartRate (countOscillations d n) = none := by
    rw [e]
    simp [heartRate]
  refine ⟨e, e2, ?_⟩
  rw [e2]
  rfl

theorem monotone_no_heartRate (p : Nat → ℚ) (n : Nat) (a0 d0 : Nat → ℚ)
    (hmono : ∀ i j, i ≤ j → j < n → p j ≤ p i) :
    (extract p n a0 d0).heartRateBPM = none := by
  rw [extract_heartRate]
  refine (heartRate_none_of_no_beat _ n (fun j h1 h2 => ?_)).2.2
  rw [extract_magnitude p n a0 d0 j h1 h2]
  have m4 := hmono (j - 4) j (by omega) h2
  have m3 := hmono (j - 3) j (by omega) h2
  have m2 := hmono (j - 2) j (by omega) h2
  have m1 := hmono (j - 1) j (by omega) h2
  norm_num
  linarith

theorem pulse_magnitude (j : Nat) :
    0.7 + pulseSeries j
      - (pulseSeries (j - 4) + pulseSeries (j - 3) + pulseSeries (j - 2) + pulseSeries (j - 1)
          + pulseSeries j) / 5 = ((pulseMagnitude500 j : Int) : ℚ) / 500 := by
  unfold pulseSeries pulseMagnitude500
  push_cast
  ring

theorem systolicBand_scaled (a b : Int) :
    systolicBand ((a : ℚ) / 500) ((b : ℚ) / 500) ↔ 48 * b < 100 * a ∧ 100 * a < 53 * b := by
  unfold systolicBand
  constructor
  · rintro ⟨h1, h2⟩
    norm_num at h1 h2
    have g1 : (48 : ℚ) * b < 100 * a := by linarith
    have g2 : (100 : ℚ) * a < 53 * b := by linarith
    exact ⟨by exact_mod_cast g1, by exact_mod_cast g2⟩
  · rintro ⟨h1, h2⟩
    have g1 : (48 : ℚ) * b < 100 * a := by exact_mod_cast h1
    have g2 : (100 : ℚ) * a < 53 * b := by exact_mod_cast h2
    norm_num
    constructor <;> linarith

theorem diastolicBand_scaled (a b : Int) :
    diastolicBand ((a : ℚ) / 500) ((b : ℚ) / 500) ↔ 78 * b < 100 * a ∧ 100 * a < 83 * b := by
  unfold diastolicBand
  constructor
  · rintro ⟨h1, h2⟩
    norm_num at h1 h2
    have g1 : (78 : ℚ) * b < 100 * a := by linarith
    have g2 : (100 : ℚ) * a < 83 * b := by linarith
    exact ⟨by exact_mod_cast g1, by exact_mod_cast g2⟩
  · rintro ⟨h1, h2⟩
    have g1 : (78 : ℚ) * b < 100 * a := by exact_mod_cast h1
    have g2 : (100 : ℚ) * a < 83 * b := by exact_mod_cast h2
    norm_num
    constructor <;> linarith

theorem above_one_scaled (a : Int) : ((a : ℚ) / 500 > 1) ↔ 500 < a := by
  constructor
  · intro h
    have g : (500 : ℚ) < a := by
      rw [gt_iff_lt, lt_div_iff₀ (by norm_num)] at h
      linarith
    exact_mod_cast g
  · intro h
    have g : (500 : ℚ) < a := by exact_mod_cast h
    rw [gt_iff_lt, lt_div_iff₀ (by norm_num)]
    linarith

theorem pulse_max : ∀ j < 1500, pulseMagnitude500 j ≤ pulseMagnitude500 300 := by decide!

theorem pulse_systolic :
    (48 * pulseMagnitude500 300 < 100 * pulseMagnitude500 200 ∧
      100 * pulseMagnitude500 200 < 53 * pulseMagnitude500 300) ∧
    ∀ j < 200, ¬ (48 * pulseMagnitude500 300 < 100 * pulseMagnitude500 j ∧
      100 * pulseMagnitude500 j < 53 * pulseMagnitude500 300) := by decide!

theorem pulse_diastolic :
    (78 * pulseMagnitude500 300 < 100 * pulseMagnitude500 400 ∧
      100 * pulseMagnitude500 400 < 83 * pulseMagnitude500 300) ∧
    ∀ j < 1500, 400 < j → ¬ (78 * pulseMagnitude500 300 < 100 * pulseMagnitude500 j ∧
      100 * pulseMagnitude500 j < 83 * pulseMagnitude500 300) := by decide!

theorem pulse_count :
    (List.range' 5 1495).countP (fun i => decide (500 < pulseMagnitude500 i)) = 27 := by decide!

theorem pulse_first : ∀ j < 100, ¬ 500 < pulseMagnitude500 j := by decide!

theorem pulse_last : ∀ j < 1500, 620 < j → ¬ 500 < pulseMagnitude500 j := by decide!

theorem pulse_beats :
    (List.range' 5 1495).countP (fun i => decide (500 < pulseMagnitude500 i)) = 27 ∧
    500 < pulseMagnitude500 100 ∧ 500 < pulseMagnitude500 620 ∧
    (∀ j < 100, ¬ 500 < pulseMagnitude500 j) ∧
    (∀ j < 1500, 620 < j → ¬ 500 < pulseMagnitude500 j) :=
  ⟨pulse_count, by decide!, by decide!, pulse_first, pulse_last⟩

theorem pulse_range : ∀ i < 1500, 4000 < pulseCenti i ∧ pulseCenti i ≤ 17000 := by decide!

theorem pulse_values :
    truncToInt (pulseSeries 200) = 158 ∧ truncToInt (pulseSeries 400) = 146 ∧
    castInt (some (roundFloat (roundFloat (roundFloat
      (((⌊((27 : Nat) : ℚ) / 2.6⌋ : Int) : ℚ) / (((620 : Nat) : ℚ) - ((100 : Nat) : ℚ))) * 50)
      * 60))) = some 57 ∧
    pulseSeries 0 = 170 ∧ pulseSeries 1499 < pulseSeries 0 := by decide!

theorem extract_pulseSeries (a0 d0 : Nat → ℚ) :
    extract pulseSeries 1500 a0 d0 = { systolic := 158, diastolic := 146, heartRateBPM := some 57 } := by
  have hd : ∀ j, 5 ≤ j → j < 1500 →
      (findMaxOscillation pulseSeries (rollingAverage pulseSeries 1500 a0).averages 1500
        d0).differences j = ((pulseMagnitude500 j : Int) : ℚ) / 500 :=
    fun j h1 h2 => (extract_magnitude pulseSeries 1500 a0 d0 j h1 h2).trans (pulse_magnitude j)
  obtain ⟨s1, _, s3, _, s5⟩ :=
    findMaxOscillation_spec pulseSeries (rollingAverage pulseSeries 1500 a0).averages 1500 d0
  have hm : (findMaxOscillation pulseSeries (rollingAverage pulseSeries 1500 a0).averages 1500
      d0).maxOscillation = ((pulseMagnitude500 300 : Int) : ℚ) / 500 := by
    have hmono : ∀ j, j < 1500 →
        ((pulseMagnitude500 j : Int) : ℚ) / 500 ≤ ((pulseMagnitude500 300 : Int) : ℚ) / 500 := by
      intro j hj
      have h : ((pulseMagnitude500 j : Int) : ℚ) ≤ ((pulseMagnitude500 300 : Int) : ℚ) := by
        exact_mod_cast pulse_max j hj
      exact div_le_div_of_nonneg_right h (by norm_num)
    apply le_antisymm
    · rcases s5 with h5 | ⟨j, hj1, hj2, hj3⟩
      · rw [h5, ← s1 5 (by norm_num) (by norm_num), hd 5 (by norm_num) (by norm_num)]
        exact hmono 5 (by norm_num)
      · rw [hj3, ← s1 j hj1 hj2, hd j hj1 hj2]
        exact hmono j hj2
    · have := s3 300 (by norm_num) (by norm_num)
      rw [← s1 300 (by norm_num) (by norm_num), hd 300 (by norm_num) (by norm_num)] at this
      exact this
  have hsys : (findCrossings pulseSeries
      (findMaxOscillation pulseSeries (rollingAverage pulseSeries 1500 a0).averages 1500
        d0).differences
      (findMaxOscillation pulseSeries (rollingAverage pulseSeries 1500 a0).averages 1500
        d0).maxOscillation 1500).systolic = 158 := by
    rw [← pulse_values.1]
    refine scan_systolic_first pulseSeries _ _ 1495 5 _ 200 rfl (by norm_num) (by norm_num) ?_ ?_
    · rw [hm, hd 200 (by norm_num) (by norm_num), systolicBand_scaled]
      exact pulse_systolic.1
    · intro l h1 h2
      rw [hm, hd l h1 (by omega), systolicBand_scaled]
      exact pulse_systolic.2 l h2
  have hdia : (findCrossings pulseSeries
      (findMaxOscillation pulseSeries (rollingAverage pulseSeries 1500 a0).averages 1500
        d0).differences
      (findMaxOscillation pulseSeries (rollingAverage pulseSeries 1500 a0).averages 1500
        d0).maxOscillation 1500).diastolic = 146 := by
    rw [← pulse_values.2.1]
    refine scan_diastolic_last pulseSeries _ _ 1495 5 _ 400 (by norm_num) (by norm_num) ?_ ?_
    · rw [hm, hd 400 (by norm_num) (by norm_num), diastolicBand_scaled]
      exact pulse_diastolic.1
    · intro l h1 h2
      rw [hm, hd l (by omega) (by omega), diastolicBand_scaled]
      exact pulse_diastolic.2 l (by omega) h1
  obtain ⟨b1, b2, b3, b4, b5⟩ := pulse_beats
  have hcount : (countOscillations
      (findMaxOscillation pulseSeries (rollingAverage pulseSeries 1500 a0).averages 1500
        d0).differences 1500).numOscillations = 27 := by
    rw [countOscillations_eq, beats_count _ 1495 5 _ (by norm_num)]
    have hc : (List.range' 5 1495).countP (fun j => decide
        ((findMaxOscillation pulseSeries (rollingAverage pulseSeries 1500 a0).averages 1500
          d0).differences j > 1))
        = (List.range' 5 1495).countP (fun i => decide (500 < pulseMagnitude500 i)) := by
      apply List.countP_congr
      intro x hx
      rw [List.mem_range'_1] at hx
      rw [hd x hx.1 (by omega)]
      simp only [decide_eq_true_eq]
      exact above_one_scaled _
    rw [hc, b1]
    rfl
  have hfirst : (countOscillations
      (findMaxOscillation pulseSeries (rollingAverage pulseSeries 1500 a0).averages 1500
        d0).differences 1500).firstIndex = ((100 : Nat) : Int) := by
    rw [countOscillations_eq]
    refine beats_first _ 1495 5 _ 100 rfl (by norm_num) (by norm_num) ?_ ?_
    · rw [hd 100 (by norm_num) (by norm_num), above_one_scaled]; exact b2
    · intro j h1 h2
      rw [hd j h1 (by omega), above_one_scaled]
      exact b4 j h2
  have hlast : (countOscillations
      (findMaxOscillation pulseSeries (rollingAverage pulseSeries 1500 a0).averages 1500
        d0).differences 1500).lastIndex = ((620 : Nat) : Int) := by
    rw [countOscillations_eq]
    refine (beats_last _ 1495 5 _ 620 (by norm_num) (by norm_num) ?_ ?_).1
    · rw [hd 620 (by norm_num) (by norm_num), above_one_scaled]; exact b3
    · intro j h1 h2
      rw [hd j (by omega) (by omega), above_one_scaled]
      exact b5 j (by omega) h1
  have hhr : (extract pulseSeries 1500 a0 d0).heartRateBPM = some 57 := by
    rw [extract_heartRate, heartRate_value _ 27 100 620 hcount (by norm_num) hfirst hlast
      (by norm_num)]
    exact pulse_values.2.2.1
  have hs : (extract pulseSeries 1500 a0 d0).systolic = 158 := by
    rw [extract_systolic]; exact hsys
  have hdi : (extract pulseSeries 1500 a0 d0).diastolic = 146 := by
    rw [extract_diastolic]; exact hdia
  cases he : extract pulseSeries 1500 a0 d0 with
  | mk s d h =>
    rw [he] at hs hdi hhr
    simp only at hs hdi hhr
    rw [hs, hdi, hhr]

/-! ## Claims -/

/-- C1 (as stated, refuted): a response that consists of the status byte 0x40 alone is not
empty, and its status byte has bit 5 clear, bit 6 set and the bits 2 and 0 clear, yet the
result is -1: each of the three reads of a data byte finds the buffer empty and yields -1, and
the assembled value 0xFF + 0xFF00 + 0xFFFF0000 = 0xFFFFFFFF is -1 as a `long`. -/
theorem readPressure_status_alone :
    [0x40].length ≠ 0 ∧ Nat.testBit 0x40 5 = false ∧ Nat.testBit 0x40 6 = true ∧
    Nat.testBit 0x40 2 = false ∧ Nat.testBit 0x40 0 = false ∧
    wireRead [] = (-1, []) ∧
    toUnsigned 8 (-1) + (toUnsigned 16 (-1) <<< 8) % 2 ^ 16 = 0xFFFF ∧
    (toUnsigned 32 (-1) <<< 16) % 2 ^ 32 = 0xFFFF0000 ∧
    toSigned 32 0xFFFFFFFF = -1 ∧
    readPressure [0x40] = -1 := by
  decide

/-- C1 (amended): the status byte read first decides the result in the priority order Busy,
NoPower, MemoryError, Saturated. On a response in which at least one byte follows the status
byte, the response of the four requested bytes in particular, the result is -1 exactly when
bit 5 is set, -2 exactly when bits 5 and 6 are clear, -3 exactly when bit 5 is clear and bits
6 and 2 are set, -4 exactly when bit 5 is clear, bit 6 set, bit 2 clear and bit 0 set, and a
value in `0 .. 2 ^ 24 - 1` otherwise; the four fault results follow from these bits whatever
follows the status byte; the status byte 0b00100000 yields -1 although its power bit is
clear. -/
theorem readPressure_status_priority (s b2 : Nat) (rest : List Nat) (hs : s < 256) :
    (readPressure (s :: b2 :: rest) = -1 ↔ s.testBit 5 = true) ∧
    (readPressure (s :: b2 :: rest) = -2 ↔ s.testBit 5 = false ∧ s.testBit 6 = false) ∧
    (readPressure (s :: b2 :: rest) = -3 ↔
      s.testBit 5 = false ∧ s.testBit 6 = true ∧ s.testBit 2 = true) ∧
    (readPressure (s :: b2 :: rest) = -4 ↔
      s.testBit 5 = false ∧ s.testBit 6 = true ∧ s.testBit 2 = false ∧ s.testBit 0 = true) ∧
    (s.testBit 5 = false ∧ s.testBit 6 = true ∧ s.testBit 2 = false ∧ s.testBit 0 = false →
      0 ≤ readPressure (s :: b2 :: rest) ∧ readPressure (s :: b2 :: rest) < 2 ^ 24) ∧
    (∀ tail : List Nat,
      (s.testBit 5 = true → readPressure (s :: tail) = -1) ∧
      (s.testBit 5 = false → s.testBit 6 = false → readPressure (s :: tail) = -2) ∧
      (s.testBit 5 = false → s.testBit 6 = true → s.testBit 2 = true →
        readPressure (s :: tail) = -3) ∧
      (s.testBit 5 = false → s.testBit 6 = true → s.testBit 2 = false → s.testBit 0 = true →
        readPressure (s :: tail) = -4)) ∧
    (Nat.testBit 0b00100000 6 = false ∧ readPressure (0b00100000 :: b2 :: rest) = -1) := by
  obtain ⟨d1, d2, d3, d4⟩ := readPressure_decoded s b2 rest hs
  exact ⟨d1, d2, d3, d4, fun h => readPressure_range s b2 rest hs h.1 h.2.1 h.2.2.1 h.2.2.2,
    fun tail => readPressure_fault s tail hs, by decide,
    (readPressure_fault 0b00100000 (b2 :: rest) (by decide)).1 (by decide)⟩

/-- Witness of C1: the status byte 0b00100000 followed by three data bytes. -/
theorem readPressure_status_priority_witness :
    0b00100000 < 256 ∧
    (readPressure [0b00100000, 0x12, 0x34, 0x56] = -1 ↔ Nat.testBit 0b00100000 5 = true) :=
  ⟨by decide, (readPressure_status_priority 0b00100000 0x12 [0x34, 0x56] (by decide)).1⟩

/-- C2: on a fault-free status byte the three data bytes, most significant first, are assembled
into `b2 * 65536 + b1 * 256 + b0`; none of the reductions to 16 and 32 bits of the declared
widths changes a sub-expression, and the result lies in `0 .. 0xFFFFFF`. -/
theorem readPressure_assembles_bytes (s b2 b1 b0 : Nat) (rest : List Nat)
    (hs : s < 256) (h2 : b2 < 256) (h1 : b1 < 256) (h0 : b0 < 256)
    (c5 : s.testBit 5 = false) (c6 : s.testBit 6 = true)
    (c2 : s.testBit 2 = false) (c0 : s.testBit 0 = false) :
    readPressure (s :: b2 :: b1 :: b0 :: rest) = (b2 : Int) * 65536 + b1 * 256 + b0 ∧
    (b1 <<< 8) % 2 ^ 16 = b1 * 256 ∧
    (b0 + b1 * 256) % 2 ^ 16 = b0 + b1 * 256 ∧
    (b2 <<< 16) % 2 ^ 32 = b2 * 65536 ∧
    (b0 + b1 * 256 + b2 * 65536) % 2 ^ 32 = b0 + b1 * 256 + b2 * 65536 ∧
    toSigned 32 ((b0 + b1 * 256 + b2 * 65536 : Nat) : Int) = (b2 : Int) * 65536 + b1 * 256 + b0 ∧
    0 ≤ readPressure (s :: b2 :: b1 :: b0 :: rest) ∧
    readPressure (s :: b2 :: b1 :: b0 :: rest) ≤ 0xFFFFFF ∧
    readPressure (s :: 0x01 :: 0x02 :: 0x03 :: rest) = 0x010203 ∧
    readPressure (s :: 0xFF :: 0xFF :: 0xFF :: rest) = 0xFFFFFF := by
  have hv := readPressure_value s b2 b1 b0 rest hs h2 h1 h0 c5 c6 c2 c0
  have e1 := readPressure_value s 0x01 0x02 0x03 rest hs (by decide) (by decide) (by decide)
    c5 c6 c2 c0
  have e2 := readPressure_value s 0xFF 0xFF 0xFF rest hs (by decide) (by decide) (by decide)
    c5 c6 c2 c0
  refine ⟨hv, ?_, ?_, ?_, ?_, ?_, ?_, ?_, ?_, ?_⟩
  · rw [Nat.shiftLeft_eq]; omega
  · omega
  · rw [Nat.shiftLeft_eq]; omega
  · omega
  · unfold toSigned; omega
  · rw [hv]; omega
  · rw [hv]; omega
  · rw [e1]; norm_num
  · rw [e2]; norm_num

/-- Witness of C2: the status byte 0x40 and the data bytes 0x12, 0x34, 0x56. -/
theorem readPressure_assembles_bytes_witness :
    (0x40 < 256 ∧ 0x12 < 256 ∧ 0x34 < 256 ∧ 0x56 < 256) ∧
    readPressure [0x40, 0x12, 0x34, 0x56] = 0x123456 :=
  ⟨by decide,
    (readPressure_assembles_bytes 0x40 0x12 0x34 0x56 [] (by decide) (by decide) (by decide)
      (by decide) (by decide) (by decide) (by decide) (by decide)).1⟩

/-- C3 (evaluation): the transfer function is computed in integer arithmetic. The raw code
425022 lies about halfway between the codes of 0 and 1 mmHg and yields 0, not 186400/372827;
at the raw code 16777215 the product exceeds the largest `long`. -/
theorem getRealPressure_integer_arithmetic :
    getRealPressure 425022 = 0 ∧
    exactTransfer 425022 = 186400 / 372827 ∧
    getRealPressure 425022 ≠ exactTransfer 425022 ∧
    (16777215 - OUTPUT_MIN) * (PRESSURE_MAX - PRESSURE_MIN) > 2 ^ 31 - 1 ∧
    getRealPressure 16777215 = 182 ∧
    1462 < exactTransfer 16777215 := by
  refine ⟨by decide!, by decide!, by decide!, by decide, by decide!, by decide!⟩

/-- C4: the calibration endpoints are mapped exactly, `OUTPUT_MIN` to 0 and `OUTPUT_MAX`
to 300. -/
theorem getRealPressure_endpoints :
    getRealPressure OUTPUT_MIN = 0 ∧ getRealPressure OUTPUT_MAX = 300 ∧
    OUTPUT_MIN = 419430 ∧ OUTPUT_MAX = 3774873 := by
  refine ⟨by decide!, by decide!, rfl, rfl⟩

/-- C5: on the calibrated range `getRealPressure` is monotonically non-decreasing and its
results lie in `[0, 300]`. -/
theorem getRealPressure_monotone (r1 r2 : Int)
    (h1 : OUTPUT_MIN ≤ r1) (h12 : r1 ≤ r2) (h2 : r2 ≤ OUTPUT_MAX) :
    getRealPressure r1 ≤ getRealPressure r2 ∧
    0 ≤ getRealPressure r1 ∧ getRealPressure r1 ≤ 300 ∧
    0 ≤ getRealPressure r2 ∧ getRealPressure r2 ≤ 300 := by
  rw [getRealPressure_calibrated r1 h1 (le_trans h12 h2),
    getRealPressure_calibrated r2 (le_trans h1 h12) h2]
  unfold OUTPUT_MIN at h1
  unfold OUTPUT_MAX at h2
  have a1 : (r1 - 419430) * 300 / 3355443 ≤ (r2 - 419430) * 300 / 3355443 := by omega
  have a2 : 0 ≤ (r1 - 419430) * 300 / 3355443 := by omega
  have a3 : (r2 - 419430) * 300 / 3355443 ≤ 300 := by omega
  have a4 : (r1 - 419430) * 300 / 3355443 ≤ 300 := by omega
  have a5 : 0 ≤ (r2 - 419430) * 300 / 3355443 := by omega
  refine ⟨?_, ?_, ?_, ?_, ?_⟩
  · exact_mod_cast a1
  · exact_mod_cast a2
  · exact_mod_cast a4
  · exact_mod_cast a5
  · exact_mod_cast a3

/-- Witness of C5: the raw codes 1000000 and 2000000. -/
theorem getRealPressure_monotone_witness :
    (OUTPUT_MIN ≤ 1000000 ∧ (1000000 : Int) ≤ 2000000 ∧ 2000000 ≤ OUTPUT_MAX) ∧
    getRealPressure 1000000 ≤ getRealPressure 2000000 :=
  ⟨by decide, (getRealPressure_monotone 1000000 2000000 (by decide) (by decide) (by decide)).1⟩

/-- C6 (as stated, refuted): the negative input -16777217 has 25 significant bits; the
`float` returned for it holds -16777216. -/
theorem getRealPressure_negative_rounds :
    (-16777217 : Int) < 0 ∧
    getRealPressure (-16777217) = -16777216 ∧
    getRealPressure (-16777217) ≠ ((-16777217 : Int) : ℚ) := by
  refine ⟨by decide, by decide!, by decide!⟩

/-- C6 (amended): every negative input down to `-2 ^ 24`, so each fault code -1 .. -5 of
`readPressure`, is returned unchanged, and the transfer function is not applied to it. -/
theorem getRealPressure_propagates_fault (f : Int) (hneg : f < 0) (hlow : -(2 ^ 24) ≤ f) :
    getRealPressure f = (f : ℚ) ∧ getRealPressure f = int32ToFloat f ∧
    getRealPressure (-1) = -1 ∧ getRealPressure (-2) = -2 ∧ getRealPressure (-3) = -3 ∧
    getRealPressure (-4) = -4 ∧ getRealPressure (-5) = -5 := by
  have hf : getRealPressure f = int32ToFloat f := by
    unfold getRealPressure; rw [if_pos hneg]
  refine ⟨?_, hf, by decide!, by decide!, by decide!, by decide!, by decide!⟩
  rw [hf]
  apply int32ToFloat_exact_le
  omega

/-- Witness of C6: the fault code -5. -/
theorem getRealPressure_propagates_fault_witness :
    ((-5 : Int) < 0 ∧ -(2 ^ 24) ≤ (-5 : Int)) ∧ getRealPressure (-5) = ((-5 : Int) : ℚ) :=
  ⟨by decide, (getRealPressure_propagates_fault (-5) (by decide) (by decide)).1⟩

/-- C7 (evaluation): a fault after the first reading does not abandon the cycle. A busy
answer during the deflation sampling, as the reading of line 156, or during pump-start
detection is compared like a pressure, and the estimate is printed. -/
theorem loop_fault_not_abandoned (mem : Uninit) :
    readPressure rxBusy = -1 ∧
    loop [rx170, rx175, rx100, rxBusy] mem
      = Outcome.estimate [RateMsg.tooFast] ⟨0, 0, none⟩ ∧
    loop [rx170, rx175, rxBusy] mem = Outcome.estimate [] ⟨0, 0, none⟩ ∧
    loop [rx170, rxBusy, rx175, rx100, rx40] mem
      = Outcome.estimate [RateMsg.tooFast] ⟨0, 0, none⟩ := by
  refine ⟨by decide, ?_, ?_, ?_⟩
  · norm_num [loop, awaitPumpStart, deflate, deflateStep, checkSlope, storeSample, extract,
      findCrossings, countOscillations, heartRate, castInt, forLoop, MAX_SAMPLES, truncToInt,
      toUnsigned, sample_rx170, sample_rx175, sample_rx100, sample_rxBusy]
  · norm_num [loop, awaitPumpStart, deflate, deflateStep, checkSlope, storeSample, extract,
      findCrossings, countOscillations, heartRate, castInt, forLoop, MAX_SAMPLES, truncToInt,
      toUnsigned, sample_rx170, sample_rx175, sample_rx100, sample_rxBusy]
  · norm_num [loop, awaitPumpStart, deflate, deflateStep, checkSlope, storeSample, extract,
      findCrossings, countOscillations, heartRate, castInt, forLoop, MAX_SAMPLES, truncToInt,
      toUnsigned, sample_rx170, sample_rx175, sample_rx100, sample_rxBusy, sample_rx40]

/-- C8 (evaluation): the warning counter is 8 bits wide and is incremented on every pass once
the buffer is full. With the cuff held at 170 mmHg for 1726 samples, all 256 slope checks
are warnings, the counter is back at 0 at line 206, and the estimate is computed and printed. -/
theorem loop_warning_counter_wraps (mem : Uninit) :
    ∃ e : Estimate,
      loop heldRun mem = Outcome.estimate (List.replicate 256 RateMsg.tooSlow) e ∧
      warnings (List.replicate 256 RateMsg.tooSlow) = 256 := by
  obtain ⟨d, hd, hw, hr⟩ := held_final mem
  refine ⟨extract d.pressures d.pressureCount mem.averages mem.differences, ?_, by decide!⟩
  unfold heldRun
  rw [loop_held, hd]
  simp only [hw, hr]
  rfl

/-- C9: the reported diastolic is the integer part of the pressure at the last index `i` with
`5 ≤ i < n` whose magnitude lies strictly between 0.78 and 0.83 of the maximum, and 0 when no
index qualifies, whatever the magnitudes and the maximum are; `extract` reports the value so
found for the magnitudes and the maximum it computed. -/
theorem diastolic_at_last_in_band (pressures differences : Nat → ℚ) (maxOscillation : ℚ)
    (n : Nat) :
    (∀ i, 5 ≤ i → i < n → diastolicBand (differences i) maxOscillation →
      (∀ j, i < j → j < n → ¬ diastolicBand (differences j) maxOscillation) →
      (findCrossings pressures differences maxOscillation n).diastolic
        = truncToInt (pressures i)) ∧
    ((∀ i, 5 ≤ i → i < n → ¬ diastolicBand (differences i) maxOscillation) →
      (findCrossings pressures differences maxOscillation n).diastolic = 0) ∧
    (∀ averages0 differences0 : Nat → ℚ,
      (extract pressures n averages0 differences0).diastolic
        = (findCrossings pressures
            (findMaxOscillation pressures (rollingAverage pressures n averages0).averages n
              differences0).differences
            (findMaxOscillation pressures (rollingAverage pressures n averages0).averages n
              differences0).maxOscillation n).diastolic) := by
  refine ⟨fun i h1 h2 hb hlast => ?_, fun hnone => ?_, fun _ _ => rfl⟩
  · exact scan_diastolic_last pressures differences maxOscillation (n - 5) 5 _ i h1 (by omega) hb
      (fun l h3 h4 => hlast l h3 (by omega))
  · exact scan_diastolic_none pressures differences maxOscillation (n - 5) 5 _
      (fun j h3 h4 => hnone j h3 (by omega))

/-- Witness of C9: with the maximum 10 the sample of magnitude 8.0 at index 6 is selected, and
the later sample of magnitude 8.1 at index 9 replaces it. -/
theorem diastolic_at_last_in_band_witness :
    (findCrossings samplePressures sampleMagnitudes 10 7).diastolic = 144 ∧
    (findCrossings samplePressures sampleMagnitudes 10 10).diastolic = 141 :=
  ⟨((diastolic_at_last_in_band samplePressures sampleMagnitudes 10 7).1 6 (by decide)
      (by decide) (by decide!) (fun j h1 h2 => by omega)).trans (by decide!),
    ((diastolic_at_last_in_band samplePressures sampleMagnitudes 10 10).1 9 (by decide)
      (by decide) (by decide!) (fun j h1 h2 => by omega)).trans (by decide!)⟩

/-- C10: the reported systolic is the integer part of the pressure at the first index `i` with
`5 ≤ i < n` whose magnitude lies strictly between 0.48 and 0.53 of the maximum, and 0 when no
index qualifies, whatever the magnitudes and the maximum are; the two bands are disjoint, so
samples of the diastolic band do not change the index; `extract` reports the value so found
for the magnitudes and the maximum it computed. -/
theorem systolic_at_first_in_band (pressures differences : Nat → ℚ) (maxOscillation : ℚ)
    (n : Nat) :
    (∀ i, 5 ≤ i → i < n → systolicBand (differences i) maxOscillation →
      (∀ j, 5 ≤ j → j < i → ¬ systolicBand (differences j) maxOscillation) →
      (findCrossings pressures differences maxOscillation n).systolic
        = truncToInt (pressures i)) ∧
    ((∀ i, 5 ≤ i → i < n → ¬ systolicBand (differences i) maxOscillation) →
      (findCrossings pressures differences maxOscillation n).systolic = 0) ∧
    (∀ x : ℚ, ¬ (diastolicBand x maxOscillation ∧ systolicBand x maxOscillation)) ∧
    (∀ averages0 differences0 : Nat → ℚ,
      (extract pressures n averages0 differences0).systolic
        = (findCrossings pressures
            (findMaxOscillation pressures (rollingAverage pressures n averages0).averages n
              differences0).differences
            (findMaxOscillation pressures (rollingAverage pressures n averages0).averages n
              differences0).maxOscillation n).systolic) := by
  refine ⟨fun i h1 h2 hb hfirst => ?_, fun hnone => ?_,
    fun x h => bands_disjoint x maxOscillation h.1 h.2, fun _ _ => rfl⟩
  · exact scan_systolic_first pressures differences maxOscillation (n - 5) 5 _ i rfl h1
      (by omega) hb hfirst
  · exact scan_systolic_none pressures differences maxOscillation (n - 5) 5 _
      (fun j h3 h4 => hnone j h3 (by omega))

/-- Witness of C10: with the maximum 10 the first sample of magnitude 5.0, at index 7, is
selected, and the second one at index 8 does not replace it. -/
theorem systolic_at_first_in_band_witness :
    (findCrossings samplePressures sampleMagnitudes 10 10).systolic = 143 :=
  ((systolic_at_first_in_band samplePressures sampleMagnitudes 10 10).1 7 (by decide)
    (by decide) (by decide!)
    (fun j h1 h2 => by interval_cases j <;> decide!)).trans (by decide!)

/-- C11: for a series of at least 5 samples the rolling average holds the sample itself at the
indices 0 to 4 and, at every index `i` with `5 ≤ i < n`, the mean of the five samples
`p[i-4] .. p[i]`, although it is obtained from a running sum (arithmetic taken as exact). -/
theorem rollingAverage_is_window_mean (p : Nat → ℚ) (n : Nat) (averages0 : Nat → ℚ)
    (hn : 5 ≤ n) :
    (∀ i, i ≤ 4 → i < n ∧ (rollingAverage p n averages0).averages i = p i) ∧
    (∀ i, 5 ≤ i → i < n →
      (rollingAverage p n averages0).averages i
        = (p (i - 4) + p (i - 3) + p (i - 2) + p (i - 1) + p i) / 5) :=
  ⟨fun i hi => ⟨by omega, (rollingAverage_spec p n averages0).1 i (by omega)⟩,
    (rollingAverage_spec p n averages0).2.1⟩

/-- Witness of C11: the samples 10, 10, 10, 10, 10, 20 give the average 12 at index 5. -/
theorem rollingAverage_is_window_mean_witness :
    5 ≤ 6 ∧ (rollingAverage windowSamples 6 (fun _ => 0)).averages 5 = 12 :=
  ⟨by decide,
    ((rollingAverage_is_window_mean windowSamples 6 (fun _ => 0) (by decide)).2 5 (by decide)
      (by decide)).trans (by decide!)⟩

/-- C12 (as stated, refuted), twice. For the samples 100, 100, 100, 100, 100, 102, 104 the
magnitudes above 1 are those of the indices 5 and 6, so the count is 2, the first index 5 and
the last 6; the formula with the real quotient 2 / 2.6 gives 2307, the code reports 0. For
thirty samples of 100 with 105 at the odd indices 5 to 29 the count is 13, the first index 5
and the last 29; the formula gives 625, the code reports 624, the quotient 5 / 24 and the two
products being rounded to a `float` each. -/
theorem heartRate_truncates_count :
    (findMaxOscillation risingSamples (rollingAverage risingSamples 7 (fun _ => 0)).averages 7
      (fun _ => 0)).differences 5 = 23 / 10 ∧
    (findMaxOscillation risingSamples (rollingAverage risingSamples 7 (fun _ => 0)).averages 7
      (fun _ => 0)).differences 6 = 35 / 10 ∧
    oscillationCount
      (findMaxOscillation risingSamples (rollingAverage risingSamples 7 (fun _ => 0)).averages 7
        (fun _ => 0)).differences 7 = 2 ∧
    (countOscillations
      (findMaxOscillation risingSamples (rollingAverage risingSamples 7 (fun _ => 0)).averages 7
        (fun _ => 0)).differences 7).firstIndex = 5 ∧
    (countOscillations
      (findMaxOscillation risingSamples (rollingAverage risingSamples 7 (fun _ => 0)).averages 7
        (fun _ => 0)).differences 7).lastIndex = 6 ∧
    truncToInt ((2 : ℚ) / 2.6 / (6 - 5) * 50 * 60) = 2307 ∧
    (extract risingSamples 7 (fun _ => 0) (fun _ => 0)).heartRateBPM = some 0 ∧
    oscillationCount
      (findMaxOscillation spikeSamples (rollingAverage spikeSamples 30 (fun _ => 0)).averages 30
        (fun _ => 0)).differences 30 = 13 ∧
    (countOscillations
      (findMaxOscillation spikeSamples (rollingAverage spikeSamples 30 (fun _ => 0)).averages 30
        (fun _ => 0)).differences 30).firstIndex = 5 ∧
    (countOscillations
      (findMaxOscillation spikeSamples (rollingAverage spikeSamples 30 (fun _ => 0)).averages 30
        (fun _ => 0)).differences 30).lastIndex = 29 ∧
    truncToInt ((13 : ℚ) / 2.6 / (29 - 5) * 50 * 60) = 625 ∧
    (extract spikeSamples 30 (fun _ => 0) (fun _ => 0)).heartRateBPM = some 624 := by
  decide!

/-- C12 (amended): when at least two indices `i` with `5 ≤ i < n` have a magnitude above 1,
`f` being the least and `l` the greatest of them, and their number is at most 255, the
reported heart rate is the integer part of the `float` that results from `⌊count / 2.6⌋`, the
quotient `count / 2.6` truncated to an integer, by the division by `l - f`, the multiplication
by 50 and the multiplication by 60, each of the three rounded to the nearest `float`;
`extract` reports this value for the magnitudes it computed. -/
theorem heartRate_formula (differences : Nat → ℚ) (n f l : Nat)
    (h1 : 5 ≤ f) (h2 : f < l) (h3 : l < n)
    (hf : differences f > 1) (hl : differences l > 1)
    (hfirst : ∀ j, 5 ≤ j → j < f → ¬ differences j > 1)
    (hlast : ∀ j, l < j → j < n → ¬ differences j > 1)
    (hc : oscillationCount differences n ≤ 255) :
    castInt (heartRate (countOscillations differences n))
      = some (truncToInt (roundFloat (roundFloat (roundFloat
          (((⌊(oscillationCount differences n : ℚ) / 2.6⌋ : Int) : ℚ) / ((l : ℚ) - (f : ℚ)))
          * 50) * 60))) ∧
    0 ≤ truncToInt (roundFloat (roundFloat (roundFloat
          (((⌊(oscillationCount differences n : ℚ) / 2.6⌋ : Int) : ℚ) / ((l : ℚ) - (f : ℚ)))
          * 50) * 60)) ∧
    (∀ (p averages0 differences0 : Nat → ℚ),
      (extract p n averages0 differences0).heartRateBPM
        = castInt (heartRate (countOscillations
            (findMaxOscillation p (rollingAverage p n averages0).averages n
              differences0).differences n))) := by
  have hcnt : (countOscillations differences n).numOscillations
      = oscillationCount differences n := by
    rw [countOscillations_eq, beats_count differences (n - 5) 5 _ (by norm_num)]
    unfold oscillationCount at hc ⊢
    show (0 + _) % 256 = _
    omega
  have hfi : (countOscillations differences n).firstIndex = (f : Int) := by
    rw [countOscillations_eq]
    exact beats_first differences (n - 5) 5 _ f rfl h1 (by omega) hf hfirst
  have hli : (countOscillations differences n).lastIndex = (l : Int) := by
    rw [countOscillations_eq]
    exact (beats_last differences (n - 5) 5 _ l (by omega) (by omega) hl
      (fun j a b => hlast j a (by omega))).1
  have hle := oscillationCount_le differences n f l h1 (le_of_lt h2) h3 hfirst hlast
  obtain ⟨g1, g2⟩ := heartRate_fits (oscillationCount differences n) f l hc h2 hle
  refine ⟨?_, g2, fun p a0 d0 => rfl⟩
  rw [heartRate_value _ (oscillationCount differences n) f l hcnt hc hfi hli h2]
  exact g1

/-- Witness of C12: magnitudes above 1 at the indices 5, 6 and 7 give 1500. -/
theorem heartRate_formula_witness :
    castInt (heartRate (countOscillations threeBeats 8)) = some 1500 :=
  ((heartRate_formula threeBeats 8 5 7 (by decide) (by decide) (by decide) (by decide!)
    (by decide!) (fun j a b => by omega) (fun j a b => by omega) (by decide!)).1).trans
    (by decide!)

/-- C13 (evaluation): with no magnitude above 1, and likewise with exactly one, the first and
the last index coincide, line 268 divides by zero and the heart rate is not a number. -/
theorem heartRate_divides_by_zero (averages0 differences0 : Nat → ℚ) :
    (extract (fun _ => 100) 6 averages0 differences0).heartRateBPM = none ∧
    countOscillations (fun _ => 0.7) 6
      = { numOscillations := 0, foundFirst := false, firstIndex := 0, lastIndex := 0 } ∧
    heartRate (countOscillations (fun _ => 0.7) 6) = none ∧
    countOscillations oneBeat 7
      = { numOscillations := 1, foundFirst := true, firstIndex := 5, lastIndex := 5 } ∧
    heartRate (countOscillations oneBeat 7) = none ∧
    (∀ (differences : Nat → ℚ) (n : Nat), (∀ j, 5 ≤ j → j < n → ¬ differences j > 1) →
      (countOscillations differences n).lastIndex - (countOscillations differences n).firstIndex
        = 0 ∧
      heartRate (countOscillations differences n) = none) := by
  refine ⟨monotone_no_heartRate _ 6 _ _ (fun _ _ _ _ => le_refl _), by decide!, by decide!,
    by decide!, by decide!, fun d n h => ?_⟩
  obtain ⟨e1, e2, _⟩ := heartRate_none_of_no_beat d n h
  refine ⟨?_, e2⟩
  rw [e1]
  rfl

/-- C14: in a deflation loop entered with nothing stored, whose readings stay above 40 for
`bus.length + 1` passes, the loop ends with `pressureCount = min (bus.length + 1) 1500`, the
cell `k` holds the `k`-th reading for every `k < pressureCount`, and every other cell is
untouched; a pass writes at most the cell `pressureCount`, only while `pressureCount < 1500`,
and then advances `pressureCount`, which never decreases. -/
theorem stored_samples_are_readings (bus : List (List Nat)) (rxEnd : List Nat) (d0 : Deflation)
    (h0 : d0.pressureCount = 0) (hd : d0.myCalculatedPressure > 40)
    (hall : ∀ rx ∈ bus, sample rx > 40) (hend : ¬ sample rxEnd > 40) :
    (∃ d : Deflation, deflate (bus ++ [rxEnd]) d0 = some d ∧
      d.pressureCount = min (bus.length + 1) 1500 ∧
      (∀ k, k < d.pressureCount → d.pressures k = (readings d0 bus).getD k 0) ∧
      (∀ k, d.pressureCount ≤ k → d.pressures k = d0.pressures k)) ∧
    (∀ (d : Deflation) (rx : List Nat),
      (∀ k, k ≠ d.pressureCount ∨ MAX_SAMPLES ≤ d.pressureCount →
        (deflateStep d rx).pressures k = d.pressures k) ∧
      (d.pressureCount < MAX_SAMPLES → (deflateStep d rx).pressureCount = d.pressureCount + 1) ∧
      (MAX_SAMPLES ≤ d.pressureCount → (deflateStep d rx).pressureCount = d.pressureCount) ∧
      d.pressureCount ≤ (deflateStep d rx).pressureCount) := by
  constructor
  · refine ⟨_, deflate_fold rxEnd hend bus d0 hd hall, ?_⟩
    obtain ⟨i1, _, i3, i4⟩ := fold_stores_readings d0 h0 (bus ++ [rxEnd])
    rw [List.foldl_append, List.foldl_cons, List.foldl_nil] at i1 i3 i4
    have hlen : (bus ++ [rxEnd]).length = bus.length + 1 := by simp
    rw [hlen] at i1 i3 i4
    refine ⟨i1, fun k hk => ?_, fun k hk => ?_⟩
    · rw [i1] at hk
      rw [i3 k hk, readings_snoc_getD d0 bus rxEnd k (by omega)]
    · rw [i1] at hk
      exact i4 k hk
  · intro d rx
    obtain ⟨_, s2, s3⟩ := deflateStep_store d rx
    simp only [MAX_SAMPLES]
    refine ⟨fun k hk => ?_, fun h => ?_, fun h => ?_, ?_⟩
    · rw [s3]
      by_cases hfull : d.pressureCount < 1500
      · rw [if_pos hfull]
        exact Function.update_noteq (by omega) _ _
      · rw [if_neg hfull]
    · rw [s2, if_pos h]
    · rw [s2, if_neg (by omega)]
    · rw [s2]; split_ifs <;> omega

/-- Witness of C14: three readings above 40, then one of 40; three samples are stored. -/
theorem stored_samples_are_readings_witness :
    (sampleStart.pressureCount = 0 ∧ sampleStart.myCalculatedPressure > 40 ∧
      ¬ sample rx40 > 40) ∧
    ∃ d : Deflation, deflate ([rx100, rx170] ++ [rx40]) sampleStart = some d ∧
      d.pressureCount = min (2 + 1) 1500 :=
  ⟨⟨rfl, by decide!, by decide!⟩,
    (stored_samples_are_readings [rx100, rx170] rx40 sampleStart rfl (by decide!)
      (fun rx hrx => by
        rcases List.mem_cons.mp hrx with h | h
        · rw [h, sample_rx100]; norm_num
        · rw [List.mem_singleton.mp h, sample_rx170]; norm_num)
      (by decide!)).1.imp (fun _ h => ⟨h.1, h.2.1⟩)⟩

/-- C15 (evaluation): the loop of lines 143-147 tests `myCalculatedPressure` without reading
it again. A run whose first reading is 100 mmHg never leaves it, whatever is read later: here
pump start is confirmed by 170 mmHg and the later readings are 175 and 170 mmHg. -/
theorem pump_up_never_rereads (bus : List (List Nat)) (mem : Uninit) :
    sample rx100 = 100 ∧ sample rx170 = 170 ∧ sample rx175 = 175 ∧
    loop [rx100, rx170, rx175, rx170, rx40] mem = Outcome.pumpUpForever ∧
    (loop (rx100 :: bus) mem = Outcome.pumpUpForever ∨
      loop (rx100 :: bus) mem = Outcome.awaitingReading) := by
  have hgen : ∀ (rx2 : List Nat) (rest : List (List Nat)),
      (awaitPumpStart 100 (sample rx2) rest = none →
        loop (rx100 :: rx2 :: rest) mem = Outcome.awaitingReading) ∧
      (∀ r, awaitPumpStart 100 (sample rx2) rest = some r →
        loop (rx100 :: rx2 :: rest) mem = Outcome.pumpUpForever) := by
    intro rx2 rest
    constructor
    · intro h
      norm_num [loop, sample_rx100, h]
    · intro r h
      norm_num [loop, sample_rx100, h]
  refine ⟨sample_rx100, sample_rx170, sample_rx175, ?_, ?_⟩
  · have h : awaitPumpStart 100 (sample rx170) [rx175, rx170, rx40]
        = some (170, [rx175, rx170, rx40]) := by
      norm_num [awaitPumpStart, sample_rx170]
    exact (hgen rx170 [rx175, rx170, rx40]).2 _ h
  · cases bus with
    | nil => right; norm_num [loop, sample_rx100]
    | cons rx2 rest =>
      cases h : awaitPumpStart 100 (sample rx2) rest with
      | none => right; exact (hgen rx2 rest).1 h
      | some r => left; exact (hgen rx2 rest).2 r h

/-- C16 (as stated, refuted): for a non-increasing series no magnitude exceeds 0.7, so no
oscillation is counted and no heart rate is obtained. -/
theorem no_monotone_series_has_heartRate :
    ¬ ∃ (p averages0 differences0 : Nat → ℚ) (h : Int),
      (∀ i j, i ≤ j → j < 1500 → p j ≤ p i) ∧
      (extract p 1500 averages0 differences0).systolic
        > (extract p 1500 averages0 differences0).diastolic ∧
      (extract p 1500 averages0 differences0).diastolic > 0 ∧
      (extract p 1500 averages0 differences0).heartRateBPM = some h ∧ 30 ≤ h ∧ h ≤ 200 := by
  rintro ⟨p, a0, d0, h, hmono, _, _, hh, _, _⟩
  rw [monotone_no_heartRate p 1500 a0 d0 hmono] at hh
  exact Option.noConfusion hh

/-- C16 (amended): there is a series of 1500 samples between 40 and 170 mmHg, falling from
170 mmHg by 0.08 mmHg per sample apart from the pulses added to it, for which the extraction
yields systolic 158 > diastolic 146 > 0 and a heart rate of 57, between 30 and 200. -/
theorem pulse_series_end_to_end :
    ∃ p : Nat → ℚ,
      p 0 = 170 ∧ p 1499 < p 0 ∧ (∀ i, i < 1500 → 40 < p i ∧ p i ≤ 170) ∧
      (∀ i, i % 20 ≠ 0 → p i = 170 - 0.08 * (i : ℚ)) ∧
      ∀ averages0 differences0 : Nat → ℚ,
        (extract p 1500 averages0 differences0).systolic
          > (extract p 1500 averages0 differences0).diastolic ∧
        (extract p 1500 averages0 differences0).diastolic > 0 ∧
        ∃ h : Int, (extract p 1500 averages0 differences0).heartRateBPM = some h ∧
          30 ≤ h ∧ h ≤ 200 := by
  refine ⟨pulseSeries, pulse_values.2.2.2.1, pulse_values.2.2.2.2, fun i hi => ?_, fun i hi => ?_,
    fun a0 d0 => ?_⟩
  · obtain ⟨r1, r2⟩ := pulse_range i hi
    have g1 : (4000 : ℚ) < (pulseCenti i : ℚ) := by exact_mod_cast r1
    have g2 : (pulseCenti i : ℚ) ≤ 17000 := by exact_mod_cast r2
    unfold pulseSeries
    constructor
    · rw [lt_div_iff₀ (by norm_num)]; linarith
    · rw [div_le_iff₀ (by norm_num)]; linarith
  · have hne : ¬ (i % 20 = 0 ∧ 100 ≤ i ∧ i ≤ 620) := fun h => hi h.1
    unfold pulseSeries pulseCenti
    rw [if_neg hne]
    push_cast
    ring
  · rw [extract_pulseSeries a0 d0]
    exact ⟨by decide, by decide, 57, rfl, by decide, by decide⟩

/-- C17 (evaluation): once 1500 samples are stored `pressureCount` stays at 1500, so the slope
check of line 173 runs on every pass and with the slope left from the last anchor. A cuff held
for 1502 passes gets 32 checks, although only 31 of the passes 0 .. 1501 are multiples
of 50. -/
theorem slope_check_every_pass_when_full (mem : Uninit) :
    (∀ (d : Deflation) (rx : List Nat),
      (deflateStep { d with pressureCount := 1500 } rx).report.length = d.report.length + 1 ∧
      (deflateStep { d with pressureCount := 1500 } rx).pressureCount = 1500 ∧
      (deflateStep { d with pressureCount := 1500 } rx).avgSlope = d.avgSlope ∧
      (deflateStep { d with pressureCount := 1500 } rx).secondPressure = d.secondPressure) ∧
    loop heldRunFull mem = Outcome.unreliable (List.replicate 32 RateMsg.tooSlow) ∧
    ((List.range 1502).filter (fun i => decide (i % 50 = 0))).length = 31 := by
  refine ⟨fun d rx => ?_, ?_, by decide!⟩
  · exact deflateStep_full { d with pressureCount := 1500 } rx rfl
  · obtain ⟨d, hd, hw, hr⟩ := held_run mem 1501
    unfold heldRunFull
    rw [loop_held, hd]
    simp only [hw, hr]
    rfl

/-- C18: for a series of at least 6 samples, after the search every magnitude at an index `i`
with `5 ≤ i < n` is `0.7 + pressures[i] - averages[i]`, the maximum is at least each of them
and equals one of them. -/
theorem maxOscillation_is_maximum (pressures averages : Nat → ℚ) (n : Nat)
    (differences0 : Nat → ℚ) (hn : 6 ≤ n) :
    (∀ i, 5 ≤ i → i < n →
      (findMaxOscillation pressures averages n differences0).differences i
        = 0.7 + pressures i - averages i) ∧
    (∀ i, 5 ≤ i → i < n →
      (findMaxOscillation pressures averages n differences0).maxOscillation
        ≥ (findMaxOscillation pressures averages n differences0).differences i) ∧
    (∃ j, 5 ≤ j ∧ j < n ∧
      (findMaxOscillation pressures averages n differences0).maxOscillation
        = (findMaxOscillation pressures averages n differences0).differences j) := by
  obtain ⟨s1, _, s3, _, s5⟩ := findMaxOscillation_spec pressures averages n differences0
  refine ⟨s1, fun i h1 h2 => ?_, ?_⟩
  · rw [s1 i h1 h2]
    exact s3 i h1 h2
  · rcases s5 with h5 | ⟨j, hj1, hj2, hj3⟩
    · exact ⟨5, le_refl 5, by omega, by rw [s1 5 (le_refl 5) (by omega)]; exact h5⟩
    · exact ⟨j, hj1, hj2, by rw [s1 j hj1 hj2]; exact hj3⟩

/-- Witness of C18: the samples 10, 10, 10, 10, 10, 20 with their rolling average give the
magnitude 0.7 + 20 - 12 at index 5. -/
theorem maxOscillation_is_maximum_witness :
    6 ≤ 6 ∧
    (findMaxOscillation windowSamples (rollingAverage windowSamples 6 (fun _ => 0)).averages 6
      (fun _ => 0)).differences 5 = 87 / 10 :=
  ⟨by decide,
    ((maxOscillation_is_maximum windowSamples
      (rollingAverage windowSamples 6 (fun _ => 0)).averages 6 (fun _ => 0) (by decide)).1 5
      (by decide) (by decide)).trans (by decide!)⟩

/-- C19 (evaluation): the raw code 408245 arrives with a fault-free status and is converted
to -1, which the caller reports as a busy device; the raw code 0 gives -37 and the raw code
7577709, whose product exceeds 32 bits, gives -640. -/
theorem valid_reading_taken_for_fault (bus : List (List Nat)) (mem : Uninit) :
    readPressure rxBelow = 408245 ∧
    getRealPressure 408245 = -1 ∧
    loop (rxBelow :: bus) mem = Outcome.fault (some Fault.busy) ∧
    getRealPressure 0 = -37 ∧
    getRealPressure 7577709 = -640 := by
  have hs : sample rxBelow = -1 := by decide!
  refine ⟨by decide, by decide!, ?_, by decide!, by decide!⟩
  have hc : truncToInt (-1) = -1 := by decide!
  have hl : loop (rxBelow :: bus) mem = Outcome.fault (faultOfCode (truncToInt (-1))) := by
    norm_num [loop, hs]
  rw [hl, hc]
  rfl

/-- C20 (evaluation): a deflation loop that ends with nothing stored still runs the
extraction, which sums the cells 0 to 4 of `pressures` and takes its first maximum from the
cells 5 of `pressures` and `averages`, none of which was written. -/
theorem extraction_reads_unwritten_cells (mem : Uninit) :
    loop [rx170, rx175, rx40] mem
      = Outcome.estimate [] (extract mem.pressures 0 mem.averages mem.differences) ∧
    (rollingAverage mem.pressures 0 mem.averages).tempSum
      = mem.pressures 0 + mem.pressures 1 + mem.pressures 2 + mem.pressures 3
        + mem.pressures 4 ∧
    (findMaxOscillation mem.pressures (rollingAverage mem.pressures 0 mem.averages).averages 0
      mem.differences).maxOscillation = 0.7 + mem.pressures 5 - mem.averages 5 := by
  refine ⟨?_, ?_, ?_⟩
  · norm_num [loop, awaitPumpStart, deflate, sample_rx170, sample_rx175, sample_rx40]
  · simp only [rollingAverage, forLoop]
    ring
  · have h := (rollingAverage_spec mem.pressures 0 mem.averages).2.2 5 (le_refl 5) (by omega)
    simp only [findMaxOscillation, forLoop]
    rw [h]


end BPMonitor
